import Mathlib

/-
Verification development for the skill-bundle verification engine
(`verification.py`).  The Python module is shallowly embedded: pure
functions become Lean functions, the mutated `VerificationResult`
dataclass becomes explicit state passing, file-system reads become
fields of a `Bundle` record that captures the observable answers of
the relevant system calls, and the external `yaml.safe_load` is an
oracle parameter.  All definitions are executable.
-/

set_option maxRecDepth 10000

namespace SkillVerify

/-- Severity of one finding (`VerificationIssue.level`, `"error"` / `"warning"`). -/
inductive Level where
  | error
  | warning
deriving DecidableEq, Repr

/-- One validation finding (`VerificationIssue`). -/
structure VerificationIssue where
  level : Level
  message : String
deriving DecidableEq, Repr

/-- Embedding of the Python values that the validator inspects in parsed YAML
frontmatter (`str`, `list`, `dict`, `bool`, `int`, `None`).  Other YAML scalar
kinds (floats, dates) are not distinguished by any code path the claims touch
and are not modelled. -/
inductive YVal where
  | null
  | bool (b : Bool)
  | int (n : Int)
  | str (s : String)
  | list (xs : List YVal)
  | map (entries : List (YVal × YVal))
deriving Repr

/-- `dict.get(k)` on a parsed frontmatter mapping: Python returns `None` both
for an absent key and for a stored `None`, and the validator only ever
distinguishes values via `isinstance`/`is None`, so absence is embedded as
`YVal.null`. -/
def fmGet (entries : List (YVal × YVal)) (k : String) : YVal :=
  match entries with
  | [] => .null
  | (key, v) :: rest =>
    match key with
    | .str s => if s = k then v else fmGet rest k
    | _ => fmGet rest k

/-- `k in frontmatter` (Python key membership, which unlike `.get` does
distinguish a stored `None` from absence). -/
def fmContainsKey (entries : List (YVal × YVal)) (k : String) : Bool :=
  match entries with
  | [] => false
  | (key, _) :: rest =>
    match key with
    | .str s => if s = k then true else fmContainsKey rest k
    | _ => fmContainsKey rest k

/-- Split a character list at every occurrence of a separator character
(structural counterpart of `str.split(sep)`). -/
def splitOnChar (c : Char) : List Char → List (List Char)
  | [] => [[]]
  | x :: xs =>
    match splitOnChar c xs with
    | [] => [[]]
    | h :: t => if x == c then [] :: h :: t else (x :: h) :: t

/-- `s.startswith(p)` (structural, kernel-reducible). -/
def strStartsWith (s p : String) : Bool :=
  p.toList.isPrefixOf s.toList

/-- `s.endswith(p)` (structural, kernel-reducible). -/
def strEndsWith (s p : String) : Bool :=
  p.toList.reverse.isPrefixOf s.toList.reverse

/-- `s.lower()` (structural, ASCII-accurate). -/
def strToLower (s : String) : String :=
  String.mk (s.toList.map Char.toLower)

/-- `s.strip()` with the ASCII whitespace characters of `Char.isWhitespace`
(Python also strips a few more control and Unicode space characters, none of
which the claims exercise). -/
def pyStrip (s : String) : String :=
  String.mk (((s.toList.dropWhile Char.isWhitespace).reverse.dropWhile Char.isWhitespace).reverse)

/-- `any(p(c) for c in s)` (structural). -/
def strAny (s : String) (p : Char → Bool) : Bool :=
  s.toList.any p

/-- `all(p(c) for c in s)` (structural). -/
def strAll (s : String) (p : Char → Bool) : Bool :=
  s.toList.all p

/-- Whether `needle` occurs as a contiguous sublist of the second list. -/
def listContainsSub (needle : List Char) : List Char → Bool
  | [] => needle.isEmpty
  | x :: xs => needle.isPrefixOf (x :: xs) || listContainsSub needle xs

/-- `isinstance(v, str)` as a Boolean on embedded YAML values. -/
def YVal.isStr (v : YVal) : Bool :=
  match v with
  | .str _ => true
  | _ => false

/-- `v is None` as a Boolean on embedded YAML values. -/
def YVal.isNull (v : YVal) : Bool :=
  match v with
  | .null => true
  | _ => false

/-- `needle in hay` for strings (Python substring test). -/
def containsSub (hay needle : String) : Bool :=
  listContainsSub needle.toList hay.toList

/-- `re.search(r"\d", s)` (ASCII digits; the claims involve ASCII only). -/
def hasDigit (s : String) : Bool :=
  strAny s Char.isDigit

/-- `str.splitlines()` restricted to `\n` line endings (the only line ending
exercised by the claims; Python also splits on `\r` and Unicode breaks). -/
def pySplitlines (s : String) : List String :=
  let cs := s.toList
  if cs.isEmpty then []
  else
    let parts := (splitOnChar '\n' cs).map String.mk
    if cs.getLast? == some '\n' then parts.dropLast else parts

/-- `pathlib.PurePosixPath(s).parts`: split on `/`, drop empty and `.`
components, keep a leading `/` marker for absolute paths. -/
def pyPathParts (s : String) : List String :=
  let comps := ((splitOnChar '/' s.toList).map String.mk).filter (fun c => c ≠ "" && c ≠ ".")
  if strStartsWith s "/" then "/" :: comps else comps

/-- `pathlib.PurePath(name).suffix`: the substring from the last dot,
provided that dot is neither the first nor the last character. -/
def pySuffix (name : String) : String :=
  let cs := name.toList
  let n := cs.length
  let dotIdxs := (List.range n).filter (fun i => cs.getD i ' ' == '.')
  match dotIdxs.getLast? with
  | some i => if 0 < i && i < n - 1 then String.mk (cs.drop i) else ""
  | none => ""

/-- Aggregate verification output (`VerificationResult`).  The two `Path`
fields of the dataclass are reduced to the directory name, the only part of
the path the validation logic reads. -/
structure VerificationResult where
  issues : List VerificationIssue := []
  specIssues : List VerificationIssue := []
  frontmatter : Option (List (YVal × YVal)) := none
  body : Option String := none
  specGrade : Int := 0
  strictGrade : Int := 0
  specPassed : Bool := false
  strictPassed : Bool := false
  strictThreshold : Int := 80
deriving Repr

/-- `VerificationResult.errors` property. -/
def VerificationResult.errors (r : VerificationResult) : List VerificationIssue :=
  r.issues.filter (fun i => decide (i.level = Level.error))

/-- `VerificationResult.warnings` property. -/
def VerificationResult.warnings (r : VerificationResult) : List VerificationIssue :=
  r.issues.filter (fun i => decide (i.level = Level.warning))

/-- `VerificationResult.spec_errors` property. -/
def VerificationResult.specErrors (r : VerificationResult) : List VerificationIssue :=
  r.specIssues.filter (fun i => decide (i.level = Level.error))

/-- `VerificationResult.spec_warnings` property. -/
def VerificationResult.specWarnings (r : VerificationResult) : List VerificationIssue :=
  r.specIssues.filter (fun i => decide (i.level = Level.warning))

/-- `VerificationResult.add_error`. -/
def VerificationResult.addError (r : VerificationResult) (m : String) : VerificationResult :=
  { r with issues := r.issues ++ [⟨Level.error, m⟩] }

/-- `VerificationResult.add_warning`. -/
def VerificationResult.addWarning (r : VerificationResult) (m : String) : VerificationResult :=
  { r with issues := r.issues ++ [⟨Level.warning, m⟩] }

/-- `VerificationResult.add_spec_error`. -/
def VerificationResult.addSpecError (r : VerificationResult) (m : String) : VerificationResult :=
  { r with specIssues := r.specIssues ++ [⟨Level.error, m⟩] }

/-- `VerificationResult.add_spec_warning`. -/
def VerificationResult.addSpecWarning (r : VerificationResult) (m : String) : VerificationResult :=
  { r with specIssues := r.specIssues ++ [⟨Level.warning, m⟩] }

/-- `VerificationResult.is_valid` property. -/
def VerificationResult.isValid (r : VerificationResult) : Bool :=
  r.specPassed

/-- `_calc_grade`: clamp(100 - errors*error_weight - warnings*warning_weight, 0, 100). -/
def calcGrade (errors warnings : Nat) (errorWeight warningWeight : Int) : Int :=
  let score : Int := 100 - ((errors : Int) * errorWeight) - ((warnings : Int) * warningWeight)
  if score < 0 then 0
  else if score > 100 then 100
  else score

/-- `_finalize_grades`. -/
def finalizeGrades (r : VerificationResult) : VerificationResult :=
  let specGrade := calcGrade r.specErrors.length r.specWarnings.length 25 4
  let strictGrade := calcGrade r.errors.length r.warnings.length 15 3
  let specPassed : Bool := r.specErrors.length == 0
  let strictPassed : Bool := specPassed && decide (strictGrade ≥ r.strictThreshold)
  { r with specGrade := specGrade, strictGrade := strictGrade,
           specPassed := specPassed, strictPassed := strictPassed }

/-- `NAME_RE.fullmatch(value)` for `^[a-z0-9-]{1,64}$`. -/
def nameReFullmatch (s : String) : Bool :=
  decide (1 ≤ s.length) && decide (s.length ≤ 64) &&
    strAll s (fun c => (decide ('a' ≤ c) && decide (c ≤ 'z')) || c.isDigit || c == '-')

/-- `OPTIONAL_DIRS` constant. -/
def OPTIONAL_DIRS : List String := ["scripts", "references", "assets"]

/-- `WORKFLOW_ALLOWED_TOPLEVEL` constant. -/
def WORKFLOW_ALLOWED_TOPLEVEL : List String :=
  ["SKILL.md", "references", "scripts", "assets", "agents"]

/-- `WORKFLOW_REFERENCE_TAXONOMY` constant. -/
def WORKFLOW_REFERENCE_TAXONOMY : List String :=
  ["api", "hooks", "types", "patterns", "architecture",
   "performance", "migration", "validation", "examples", "misc"]

/-- `", ".join(sorted(WORKFLOW_REFERENCE_TAXONOMY))`. -/
def taxonomySortedJoined : String :=
  "api, architecture, examples, hooks, migration, misc, patterns, performance, types, validation"

/-- `_validate_name` (strict profile). -/
def validateName (value : YVal) (parentDirName : String) (r : VerificationResult) : VerificationResult :=
  match value with
  | .str v =>
    let r := if v.length = 0 ∨ v.length > 64 then
        r.addError "`name` must be 1-64 characters." else r
    let r := if nameReFullmatch v = false then
        r.addError "`name` must contain only lowercase letters, numbers, and hyphens." else r
    let r := if strStartsWith v "-" ∨ strEndsWith v "-" then
        r.addError "`name` must not start or end with `-`." else r
    let r := if containsSub v "--" then
        r.addError "`name` must not contain consecutive hyphens (`--`)." else r
    if v ≠ parentDirName then
      r.addError ("`name` (" ++ v ++ ") must match the parent directory name (" ++ parentDirName ++ ").")
    else r
  | _ => r.addError "Frontmatter field `name` is required and must be a string."

/-- `_validate_description` (strict profile). -/
def validateDescription (value : YVal) (r : VerificationResult) : VerificationResult :=
  match value with
  | .str v =>
    let length := (pyStrip v).length
    if length = 0 ∨ length > 1024 then
      r.addError "`description` must be non-empty and at most 1024 characters."
    else if length < 20 then
      r.addWarning "`description` is very short; Agent Skills spec recommends describing what the skill does and when to use it."
    else r
  | _ => r.addError "Frontmatter field `description` is required and must be a string."

/-- `_validate_optional_string_field` (strict profile). -/
def validateOptionalStringField (key : String) (value : YVal) (r : VerificationResult)
    (maxLen : Option Nat) : VerificationResult :=
  match value with
  | .null => r
  | .str v =>
    let trimmed := pyStrip v
    if key = "compatibility" ∧ trimmed.length = 0 then
      r.addError "`compatibility` must be 1-500 characters if provided."
    else
      match maxLen with
      | some m =>
        if trimmed.length > m then
          r.addError ("`" ++ key ++ "` must be at most " ++ toString m ++ " characters.")
        else r
      | none => r
  | _ => r.addError ("`" ++ key ++ "` must be a string if provided.")

/-- `str(k)` for a YAML key interpolated into a metadata warning message.
Exact only for string keys; the other renderings approximate Python `str` and
are not inspected by any claim. -/
def yvalKeyStr (v : YVal) : String :=
  match v with
  | .str s => s
  | .null => "None"
  | .bool b => if b then "True" else "False"
  | .int n => toString n
  | .list _ => "<list>"
  | .map _ => "<dict>"

/-- `_validate_metadata` (strict profile). -/
def validateMetadata (value : YVal) (r : VerificationResult) : VerificationResult :=
  match value with
  | .null => r
  | .map entries =>
    entries.foldl (fun r kv =>
      let r := match kv.1 with
        | .str _ => r
        | _ => r.addError "`metadata` keys must be strings."
      match kv.2 with
      | .str _ => r
      | _ => r.addWarning ("`metadata." ++ yvalKeyStr kv.1 ++ "` is structured (non-string). Agent Skills spec prefers string metadata values, but this workflow currently allows richer metadata.")) r
  | _ => r.addError "`metadata` must be a key-value mapping if provided."

/-- `_validate_metadata_spec` (spec profile). -/
def validateMetadataSpec (value : YVal) (r : VerificationResult) : VerificationResult :=
  match value with
  | .null => r
  | .map entries =>
    entries.foldl (fun r kv =>
      let r := match kv.1 with
        | .str _ => r
        | _ => r.addSpecError "`metadata` keys must be strings."
      match kv.2 with
      | .str _ => r
      | _ => r.addSpecWarning ("`metadata." ++ yvalKeyStr kv.1 ++ "` is structured (non-string). Spec-oriented tooling may expect string metadata values.")) r
  | _ => r.addSpecError "`metadata` must be a key-value mapping if provided."

/-- `_validate_allowed_tools` (strict profile). -/
def validateAllowedTools (value : YVal) (r : VerificationResult) : VerificationResult :=
  match value with
  | .null => r
  | .str v =>
    if (pyStrip v).length = 0 then
      r.addError "`allowed-tools` must not be empty if provided."
    else r
  | _ => r.addError "`allowed-tools` must be a space-delimited string if provided."

/-- `_validate_allowed_tools_spec` (spec profile). -/
def validateAllowedToolsSpec (value : YVal) (r : VerificationResult) : VerificationResult :=
  match value with
  | .null => r
  | .str v =>
    if (pyStrip v).length = 0 then
      r.addSpecError "`allowed-tools` must not be empty if provided."
    else r
  | _ => r.addSpecError "`allowed-tools` must be a space-delimited string if provided."

/-- `_validate_name_spec` (spec profile). -/
def validateNameSpec (value : YVal) (parentDirName : String) (r : VerificationResult) : VerificationResult :=
  match value with
  | .str v =>
    let r := if v.length = 0 ∨ v.length > 64 then
        r.addSpecError "`name` must be 1-64 characters." else r
    let r := if nameReFullmatch v = false then
        r.addSpecError "`name` must contain only lowercase letters, numbers, and hyphens." else r
    let r := if strStartsWith v "-" ∨ strEndsWith v "-" then
        r.addSpecError "`name` must not start or end with `-`." else r
    let r := if containsSub v "--" then
        r.addSpecError "`name` must not contain consecutive hyphens (`--`)." else r
    if v ≠ parentDirName then
      r.addSpecError ("`name` (" ++ v ++ ") must match the parent directory name (" ++ parentDirName ++ ").")
    else r
  | _ => r.addSpecError "Frontmatter field `name` is required and must be a string."

/-- `_validate_description_spec` (spec profile). -/
def validateDescriptionSpec (value : YVal) (r : VerificationResult) : VerificationResult :=
  match value with
  | .str v =>
    let length := (pyStrip v).length
    if length = 0 ∨ length > 1024 then
      r.addSpecError "`description` must be non-empty and at most 1024 characters."
    else if length < 20 then
      r.addSpecWarning "`description` is very short; include what the skill does and when to use it."
    else r
  | _ => r.addSpecError "Frontmatter field `description` is required and must be a string."

/-- `_validate_optional_string_field_spec` (spec profile). -/
def validateOptionalStringFieldSpec (key : String) (value : YVal) (r : VerificationResult)
    (maxLen : Option Nat) : VerificationResult :=
  match value with
  | .null => r
  | .str v =>
    let trimmed := pyStrip v
    if key = "compatibility" ∧ trimmed.length = 0 then
      r.addSpecError "`compatibility` must be 1-500 characters if provided."
    else
      match maxLen with
      | some m =>
        if trimmed.length > m then
          r.addSpecError ("`" ++ key ++ "` must be at most " ++ toString m ++ " characters.")
        else r
      | none => r
  | _ => r.addSpecError ("`" ++ key ++ "` must be a string if provided.")

/-- `_is_non_empty_string_list`. -/
def isNonEmptyStringList (v : YVal) : Bool :=
  match v with
  | .list xs =>
    decide (xs.length > 0) && xs.all (fun x =>
      match x with
      | .str s => !(pyStrip s).isEmpty
      | _ => false)
  | _ => false

/-- Observable status of one file-system path (`exists()` / `is_dir()` /
`is_file()`). -/
inductive PathKind where
  | missing
  | file
  | dir
deriving DecidableEq, Repr

/-- Result of `Path.read_text(encoding="utf-8")` on the manifest. -/
inductive ReadResult where
  | ok (text : String)
  | notUtf8
  | osError (msg : String)
deriving DecidableEq, Repr

/-- One entry of `skill_dir.iterdir()`. -/
structure Entry where
  name : String
  isDir : Bool
deriving DecidableEq, Repr

/-- One regular file found by `references_dir.rglob("*")`, as the rest of the
code observes it: its path parts relative to the bundle root (starting with
`"references"`) and `len(read_text().splitlines())`, `none` when the file is
not UTF-8 decodable. -/
structure RefFile where
  parts : List String
  lineCount : Option Nat
deriving DecidableEq, Repr

/-- A skill bundle directory as observed by `verify_skill_directory`: each
field records the answers the file system gives to the calls the code makes.
`refFiles` is the sorted list of regular files under `references/`
(directories whose names end in `.md` under `references/` would make the
Python total-line scan raise and are outside this model). -/
structure Bundle where
  dirName : String
  rootKind : PathKind
  skillMdExists : Bool
  skillMdRead : ReadResult
  entries : List Entry
  subpathKind : List String → PathKind
  absKind : List String → PathKind
  refFiles : List RefFile

/-- `_validate_optional_dirs`: `p.exists() and not p.is_dir()` is exactly
`PathKind.file` for the three optional directory names. -/
def validateOptionalDirs (b : Bundle) (r : VerificationResult) : VerificationResult :=
  OPTIONAL_DIRS.foldl (fun r d =>
    if b.subpathKind [d] = PathKind.file then
      r.addError ("`" ++ d ++ "` exists but is not a directory.")
    else r) r

/-- One line matching `re.match(r"^\s*-\s+@", line)`. -/
def yamlSafetyLineBad (line : String) : Bool :=
  match line.toList.dropWhile Char.isWhitespace with
  | '-' :: rest =>
    (match rest with
     | c :: _ => c.isWhitespace
     | [] => false) &&
    (match rest.dropWhile Char.isWhitespace with
     | '@' :: _ => true
     | _ => false)
  | _ => false

/-- Message of the YAML frontmatter safety error. -/
def yamlSafetyMsg : String :=
  "YAML frontmatter safety rule violated: quote trigger/scalar values starting with `@` (use `- \"@pkg/name\"`)."

/-- `_validate_yaml_frontmatter_safety`. -/
def validateYamlFrontmatterSafety (fmText : String) (r : VerificationResult) : VerificationResult :=
  (pySplitlines fmText).foldl (fun r line =>
    if yamlSafetyLineBad line then r.addError yamlSafetyMsg else r) r

/-- The body of the `_validate_top_level_layout` loop for one entry. -/
def layoutStep (r : VerificationResult) (child : Entry) : VerificationResult :=
  if child.name = ".DS_Store" then r
  else if WORKFLOW_ALLOWED_TOPLEVEL.contains child.name then r
  else if child.isDir then
    r.addWarning ("Unexpected top-level directory `" ++ child.name ++ "`. Workflow convention expects SKILL.md plus optional scripts/references/assets/agents.")
  else
    r.addWarning ("Unexpected top-level file `" ++ child.name ++ "`. Workflow convention prefers only `SKILL.md` at skill root.")

/-- `_validate_top_level_layout`. -/
def validateTopLevelLayout (entries : List Entry) (r : VerificationResult) : VerificationResult :=
  entries.foldl layoutStep r

/-- `_validate_activation`. -/
def validateActivation (fm : List (YVal × YVal)) (r : VerificationResult) : VerificationResult :=
  match fmGet fm "activation" with
  | .map act =>
    let modeOk : Bool := match fmGet act "mode" with
      | .str s => s == "strict" || s == "fuzzy"
      | _ => false
    let r := if modeOk then r else
      r.addError "Workflow gate: `activation.mode` must be `strict` or `fuzzy`."
    let r := if isNonEmptyStringList (fmGet act "triggers") then r else
      r.addError "Workflow gate: `activation.triggers` must be a non-empty list of strings."
    let priorityOk : Bool := match fmGet act "priority" with
      | .str s => s == "normal" || s == "high"
      | _ => false
    if priorityOk then r else
      r.addError "Workflow gate: `activation.priority` must be `normal` or `high`."
  | _ =>
    r.addError "Workflow gate: `activation` is required and must be a mapping with `mode`, `triggers`, and `priority`."

/-- `metadata.get("compatibility") if isinstance(metadata, dict) else None`. -/
def metadataCompatOf (fm : List (YVal × YVal)) : YVal :=
  match fmGet fm "metadata" with
  | .map m => fmGet m "compatibility"
  | _ => .null

/-- The `has_metadata_compat` condition of `_validate_version_and_compatibility`:
a non-blank string or a non-empty mapping under `metadata.compatibility`. -/
def hasMetadataCompat (fm : List (YVal × YVal)) : Bool :=
  (match metadataCompatOf fm with
   | .str s => !(pyStrip s).isEmpty
   | _ => false) ||
  (match metadataCompatOf fm with
   | .map m => decide (m.length > 0)
   | _ => false)

/-- The `version_pinned` condition of `_validate_version_and_compatibility`. -/
def versionPinned (fm : List (YVal × YVal)) : Bool :=
  (match fmGet fm "metadata" with
   | .map m => m.any (fun kv =>
     match kv.1, kv.2 with
     | .str k, .str v =>
       containsSub (strToLower k) "version" && !(pyStrip v).isEmpty && hasDigit v
     | _, _ => false)
   | _ => false) ||
  (match fmGet fm "compatibility" with
   | .str s => hasDigit s
   | _ => false)

/-- Message of the missing-compatibility version-governance error. -/
def compatGovMsg : String :=
  "Workflow gate: version governance requires compatibility metadata (prefer top-level `compatibility`)."

/-- Message of the unpinned-version governance error. -/
def unpinnedMsg : String :=
  "Workflow gate: version appears unpinned. Add at least one metadata `*version*` string (e.g., `metadata.version: \"1.0\"` or dependency version pin)."

/-- `_validate_version_and_compatibility`. -/
def validateVersionAndCompatibility (fm : List (YVal × YVal)) (r : VerificationResult) : VerificationResult :=
  let r := if (fmGet fm "compatibility").isNull && !hasMetadataCompat fm then
      r.addError compatGovMsg
    else r
  if versionPinned fm then r else r.addError unpinnedMsg

/-- `p.suffix.lower() == ".md"` filter producing `md_reference_files`. -/
def mdRefFiles (files : List RefFile) : List RefFile :=
  files.filter (fun f => strToLower (pySuffix (f.parts.getLastD "")) == ".md")

/-- `rel.as_posix()` of a reference file path. -/
def posixJoin (parts : List String) : String :=
  String.intercalate "/" parts

/-- Message of the depth (taxonomy-folder) error for one reference file. -/
def refDepthErrMsg (parts : List String) : String :=
  "Workflow gate: reference file must be under taxonomy folder `references/<category>/...`, got `" ++ posixJoin parts ++ "`."

/-- Message of the invalid-category error for one reference file. -/
def refCategoryErrMsg (parts : List String) : String :=
  "Workflow gate: invalid reference category `" ++ parts.getD 1 "" ++ "` in `" ++ posixJoin parts ++ "`. Allowed: " ++ taxonomySortedJoined ++ "."

/-- Message of the undecodable-reference error for one reference file. -/
def refDecodeErrMsg (parts : List String) : String :=
  "Reference file must be UTF-8 decodable: `" ++ posixJoin parts ++ "`"

/-- Message of the oversize-reference error for one reference file. -/
def refSizeErrMsg (parts : List String) (lineCount : Nat) : String :=
  "Workflow gate: reference file exceeds 800 lines (" ++ toString lineCount ++ "): `" ++ posixJoin parts ++ "`."

/-- The body of the taxonomy-and-size loop of
`_validate_references_taxonomy_and_sizes` for one reference file. -/
def taxonomyStep (r : VerificationResult) (f : RefFile) : VerificationResult :=
  if f.parts.length < 3 then r.addError (refDepthErrMsg f.parts)
  else
    let r := if WORKFLOW_REFERENCE_TAXONOMY.contains (f.parts.getD 1 "") then r
      else r.addError (refCategoryErrMsg f.parts)
    match f.lineCount with
    | none => r.addError (refDecodeErrMsg f.parts)
    | some n => if n > 800 then r.addError (refSizeErrMsg f.parts n) else r

/-- The taxonomy-and-size loop of `_validate_references_taxonomy_and_sizes`
over `md_reference_files`. -/
def taxonomyLoop (files : List RefFile) (r : VerificationResult) : VerificationResult :=
  files.foldl taxonomyStep r

/-- The findings the taxonomy-and-size loop appends for one reference file
(the loop body of `_validate_references_taxonomy_and_sizes`, as a pure
function). -/
def refFileFindings (f : RefFile) : List VerificationIssue :=
  if f.parts.length < 3 then [⟨Level.error, refDepthErrMsg f.parts⟩]
  else
    (if WORKFLOW_REFERENCE_TAXONOMY.contains (f.parts.getD 1 "") then []
     else [⟨Level.error, refCategoryErrMsg f.parts⟩]) ++
    (match f.lineCount with
     | none => [⟨Level.error, refDecodeErrMsg f.parts⟩]
     | some n => if n > 800 then [⟨Level.error, refSizeErrMsg f.parts n⟩] else [])

/-- The listed-`references`-entries loop of
`_validate_references_taxonomy_and_sizes`. -/
def listedRefLoop (b : Bundle) (refsField : YVal) (r : VerificationResult) : VerificationResult :=
  match refsField with
  | .list refs =>
    refs.foldl (fun r ref =>
      match ref with
      | .str s =>
        if (pyStrip s).isEmpty then r
        else
          let parts := pyPathParts s
          let resolvedKind := if strStartsWith s "/" then b.absKind parts else b.subpathKind parts
          if resolvedKind = PathKind.file then
            if parts.length < 3 ∨ parts.headD "" ≠ "references" then
              r.addError ("Workflow gate: `references` entries must use taxonomy paths under `references/<category>/...`, got `" ++ s ++ "`.")
            else if WORKFLOW_REFERENCE_TAXONOMY.contains (parts.getD 1 "") then r
            else
              r.addError ("Workflow gate: `references` entry category `" ++ parts.getD 1 "" ++ "` is not allowed: `" ++ s ++ "`.")
          else r
      | _ => r) r
  | _ => r

/-- Message of the fragmentation-guard warning. -/
def fragWarnMsg : String :=
  "Workflow gate: many reference files are under 100 lines. Check fragmentation guard and merge semantically related files where possible."

/-- Number of decodable markdown reference files under 100 lines
(`micro_files`). -/
def microCount (files : List RefFile) : Nat :=
  ((mdRefFiles files).filter (fun f =>
    match f.lineCount with
    | some n => decide (n < 100)
    | none => false)).length

/-- `_validate_references_taxonomy_and_sizes`. -/
def validateReferencesTaxonomyAndSizes (b : Bundle) (fm : List (YVal × YVal))
    (r : VerificationResult) : VerificationResult :=
  let refsField := fmGet fm "references"
  let refDirKind := b.subpathKind ["references"]
  if isNonEmptyStringList refsField ∧ refDirKind = PathKind.missing then
    r.addError "Workflow gate: `references` field is present but `references/` directory is missing."
  else if refDirKind = PathKind.missing then r
  else if refDirKind ≠ PathKind.dir then
    r.addError "`references` must be a directory when present."
  else
    let mds := mdRefFiles b.refFiles
    let r := taxonomyLoop mds r
    let r := listedRefLoop b refsField r
    if decide (mds.length ≥ 5) && decide (microCount b.refFiles ≥ max 3 (mds.length / 2)) then
      r.addWarning fragWarnMsg
    else r

/-- `line.strip().startswith("```")`. -/
def isFenceLine (line : String) : Bool :=
  strStartsWith (pyStrip line) "```"

/-- Loop state of the fenced-code scan in `_validate_brain_only_guidance`. -/
structure FenceState where
  inCode : Bool := false
  codeLines : Nat := 0
  codeBlocks : Nat := 0
  currentBlockLines : Nat := 0
  maxBlockLines : Nat := 0
deriving DecidableEq, Repr

/-- One iteration of the fenced-code scan loop. -/
def fenceStep (st : FenceState) (line : String) : FenceState :=
  if isFenceLine line then
    if st.inCode = false then
      { st with inCode := true, codeBlocks := st.codeBlocks + 1, currentBlockLines := 0 }
    else
      { st with inCode := false, maxBlockLines := max st.maxBlockLines st.currentBlockLines }
  else if st.inCode then
    { st with codeLines := st.codeLines + 1, currentBlockLines := st.currentBlockLines + 1 }
  else st

/-- The fenced-code scan over all lines of the manifest text. -/
def scanFences (lines : List String) : FenceState :=
  lines.foldl fenceStep {}

/-- `re.search(r"(?im)^#{1,6}\s+.*example", text)`: some line starts with one
to six `#` followed by a whitespace character, with `example` (case-insensitive)
somewhere after. -/
def hasExampleHeading (text : String) : Bool :=
  (pySplitlines text).any (fun line =>
    let cs := line.toList
    let hashes := cs.takeWhile (fun c => c == '#')
    decide (1 ≤ hashes.length) && decide (hashes.length ≤ 6) &&
    (match cs.drop hashes.length with
     | c :: rest => c.isWhitespace && containsSub (strToLower (String.mk rest)) "example"
     | [] => false))

/-- Message of the unclosed-fence warning. -/
def unclosedFenceMsg : String :=
  "SKILL.md contains an unclosed fenced code block."

/-- Message of the example-sections warning. -/
def exampleHeadingMsg : String :=
  "Workflow gate: SKILL.md appears to contain example sections. Move examples into `references/` files."

/-- Message of the fenced-code-present warning. -/
def codeBlocksMsg : String :=
  "Workflow gate: SKILL.md contains fenced code blocks. Keep SKILL.md focused on critical rules and move examples/code to `references/`."

/-- Message of the large-code-block error. -/
def largeCodeMsg : String :=
  "Workflow gate: SKILL.md contains large code block(s). Prompt rules require examples/large code blocks to be moved to `references/`."

/-- Message of the manifest-vs-references ratio warning.  The percentage the
Python f-string renders from a float is approximated by round-half-up integer
arithmetic; no claim inspects this message. -/
def ratioWarnMsg (numLines refTotal : Nat) : String :=
  "Workflow gate: SKILL.md is " ++ toString numLines ++ " lines vs " ++ toString refTotal ++
    " reference lines (~" ++ toString ((numLines * 200 + refTotal) / (2 * refTotal)) ++
    "%). Target ~10% per your builder prompt."

/-- `_validate_brain_only_guidance`.  The float comparison
`len(lines)/max(total,1) > 0.20` is embedded as the exact rational comparison
`5 * len(lines) > total` (`total ≥ 200` holds whenever it is evaluated). -/
def validateBrainOnlyGuidance (skillMdText : String) (referencesTotalLines : Option Nat)
    (r : VerificationResult) : VerificationResult :=
  let lines := pySplitlines skillMdText
  let st := scanFences lines
  let maxBlockLines := if st.inCode then max st.maxBlockLines st.currentBlockLines
    else st.maxBlockLines
  let r := if st.inCode then r.addWarning unclosedFenceMsg else r
  let r := if hasExampleHeading skillMdText then r.addWarning exampleHeadingMsg else r
  let r := if st.codeBlocks > 0 then r.addWarning codeBlocksMsg else r
  let r := if maxBlockLines > 25 ∨ st.codeLines > 60 then r.addError largeCodeMsg else r
  match referencesTotalLines with
  | some total =>
    if total ≥ 200 ∧ 5 * lines.length > total then
      r.addWarning (ratioWarnMsg lines.length total)
    else r
  | none => r

/-- The per-entry existence/shape loop over a well-formed `references` list in
`_validate_custom_frontmatter_conventions`. -/
def listedRefExistenceLoop (b : Bundle) (rs : List YVal) (r : VerificationResult) : VerificationResult :=
  rs.foldl (fun r ref =>
    match ref with
    | .str s =>
      if strStartsWith s "/" then
        r.addError ("`references` entry must be relative to the skill root, got absolute path: " ++ s)
      else if (pyPathParts s).contains ".." then
        r.addError ("`references` entry must not traverse outside the skill root: " ++ s)
      else if b.subpathKind (pyPathParts s) = PathKind.missing then
        r.addError ("`references` entry not found: " ++ s)
      else r
    | _ => r) r

/-- `_validate_custom_frontmatter_conventions`.  The early `return` inside the
malformed-`references` branch (which skips the activation and version checks)
is encoded by duplicating the tail call in the two continuing branches. -/
def validateCustomFrontmatterConventions (fm : List (YVal × YVal)) (b : Bundle)
    (r : VerificationResult) : VerificationResult :=
  let r := if isNonEmptyStringList (fmGet fm "triggers") then r else
    r.addError "Workflow gate: `triggers` is required and must be a non-empty list of strings."
  if fmContainsKey fm "references" then
    let refs := fmGet fm "references"
    if isNonEmptyStringList refs = false then
      r.addError "Workflow gate: `references` is required and must be a non-empty list of relative file paths."
    else
      let r := match refs with
        | .list rs => listedRefExistenceLoop b rs r
        | _ => r
      validateVersionAndCompatibility fm (validateActivation fm r)
  else
    let r := r.addError "Workflow gate: `references` field is required in SKILL.md frontmatter."
    validateVersionAndCompatibility fm (validateActivation fm r)

/-- `_run_spec_validation`. -/
def runSpecValidation (fm : List (YVal × YVal)) (dirName : String) (body : Option String)
    (r : VerificationResult) : VerificationResult :=
  let r := validateNameSpec (fmGet fm "name") dirName r
  let r := validateDescriptionSpec (fmGet fm "description") r
  let r := validateOptionalStringFieldSpec "license" (fmGet fm "license") r none
  let r := validateOptionalStringFieldSpec "compatibility" (fmGet fm "compatibility") r (some 500)
  let r := validateMetadataSpec (fmGet fm "metadata") r
  let r := validateAllowedToolsSpec (fmGet fm "allowed-tools") r
  match body with
  | none => r.addSpecWarning "SKILL.md has no Markdown body after frontmatter."
  | some bodyText =>
    if (pyStrip bodyText).isEmpty then
      r.addSpecWarning "SKILL.md has no Markdown body after frontmatter."
    else r

/-- `_split_frontmatter`: scan for the closing `---` line, accumulating
frontmatter lines. -/
def splitFMAux (pending : List String) (acc : List String) : Option (String × String) :=
  match pending with
  | [] => none
  | l :: ls =>
    if pyStrip l = "---" then
      some (String.intercalate "\n" acc.reverse, String.intercalate "\n" ls)
    else splitFMAux ls (l :: acc)

/-- `_split_frontmatter`. -/
def splitFrontmatter (text : String) : Option (String × String) :=
  match pySplitlines text with
  | [] => none
  | first :: rest =>
    if pyStrip first = "---" then splitFMAux rest [] else none

/-- Message of the structural not-a-directory error (path rendered by name). -/
def notDirMsg (dirName : String) : String :=
  "Skill path is not a directory: " ++ dirName

/-- Message of the missing-manifest structural error. -/
def missingManifestMsg : String :=
  "Missing required file: SKILL.md"

/-- Message of the undecodable-manifest structural error. -/
def notUtf8Msg : String :=
  "SKILL.md must be UTF-8 decodable text."

/-- Message of the missing-frontmatter-delimiters structural error. -/
def fmDelimMsg : String :=
  "SKILL.md must start with YAML frontmatter delimited by `---`."

/-- Message of the frontmatter-not-a-mapping structural error. -/
def fmMappingMsg : String :=
  "SKILL.md frontmatter must be a YAML mapping/object."

/-- The total-line scan over `(skill_dir / "references").rglob("*.md")`
feeding the ratio warning (undecodable files skipped). -/
def referencesTotalLines (b : Bundle) : Nat :=
  if b.subpathKind ["references"] ≠ PathKind.missing then
    (b.refFiles.filter (fun f => strEndsWith (f.parts.getLastD "") ".md")).foldl
      (fun acc f =>
        match f.lineCount with
        | some n => acc + n
        | none => acc) 0
  else 0

/-- The tail of `verify_skill_directory` once the frontmatter parsed to a
mapping `fm`: the per-field rules, the body/length warnings and the
brain-only guidance. -/
def verifyParsed (b : Bundle) (text fmText body : String) (fm : List (YVal × YVal))
    (r : VerificationResult) : VerificationResult :=
  let r := { r with frontmatter := some fm }
  let r := validateName (fmGet fm "name") b.dirName r
  let r := validateDescription (fmGet fm "description") r
  let r := validateOptionalStringField "license" (fmGet fm "license") r none
  let r := validateOptionalStringField "compatibility" (fmGet fm "compatibility") r (some 500)
  let r := validateMetadata (fmGet fm "metadata") r
  let r := validateAllowedTools (fmGet fm "allowed-tools") r
  let r := validateCustomFrontmatterConventions fm b r
  let r := validateReferencesTaxonomyAndSizes b fm r
  let r := runSpecValidation fm b.dirName (some body) r
  let r := if (pyStrip body).isEmpty then
      r.addWarning "SKILL.md has no Markdown body after frontmatter."
    else r
  let numLines := (pySplitlines text).length
  let r := if numLines > 500 then
      r.addWarning ("SKILL.md has " ++ toString numLines ++ " lines; Agent Skills recommends keeping it under 500 lines.")
    else r
  let refTotal := referencesTotalLines b
  validateBrainOnlyGuidance text (if refTotal = 0 then none else some refTotal) r

/-- The part of `verify_skill_directory` from the frontmatter split on, given
the manifest decoded to `text`. -/
def verifyWithText (yamlSafeLoad : String → Except String YVal) (b : Bundle) (text : String)
    (r : VerificationResult) : VerificationResult :=
  match splitFrontmatter text with
  | none => (r.addError fmDelimMsg).addSpecError fmDelimMsg
  | some (fmText, body) =>
    let r := { r with body := some body }
    let r := validateYamlFrontmatterSafety fmText r
    match (if (pyStrip fmText).isEmpty then Except.ok YVal.null else yamlSafeLoad fmText :
        Except String YVal) with
    | .error e =>
      (r.addError ("Invalid YAML frontmatter in SKILL.md: " ++ e)).addSpecError
        ("Invalid YAML frontmatter in SKILL.md: " ++ e)
    | .ok parsed =>
      match parsed with
      | .map fm => verifyParsed b text fmText body fm r
      | _ => (r.addError fmMappingMsg).addSpecError fmMappingMsg

/-- `verify_skill_directory` up to but excluding the `_finalize_grades` calls:
the Python function calls `_finalize_grades` immediately before every
`return`, so it factors as `finalizeGrades` composed with this function.
`yamlSafeLoad` is the external `yaml.safe_load` oracle. -/
def verifyPre (yamlSafeLoad : String → Except String YVal) (b : Bundle) : VerificationResult :=
  let r : VerificationResult := {}
  if b.rootKind ≠ PathKind.dir then
    (r.addError (notDirMsg b.dirName)).addSpecError (notDirMsg b.dirName)
  else if b.skillMdExists = false then
    (r.addError missingManifestMsg).addSpecError missingManifestMsg
  else
    let r := validateOptionalDirs b r
    let r := validateTopLevelLayout b.entries r
    match b.skillMdRead with
    | .notUtf8 => (r.addError notUtf8Msg).addSpecError notUtf8Msg
    | .osError e =>
      (r.addError ("Unable to read SKILL.md: " ++ e)).addSpecError ("Unable to read SKILL.md: " ++ e)
    | .ok text => verifyWithText yamlSafeLoad b text r

/-- `verify_skill_directory`. -/
def verify (yamlSafeLoad : String → Except String YVal) (b : Bundle) : VerificationResult :=
  finalizeGrades (verifyPre yamlSafeLoad b)

/-- `format_verification_report` (paths rendered by directory name). -/
def formatVerificationReport (r : VerificationResult) (dirName : String) : String :=
  let header := ["[verify] " ++ dirName,
    "[verify] SPEC  grade=" ++ toString r.specGrade ++ "/100 status=" ++
      (if r.specPassed then "PASS" else "FAIL"),
    "[verify] STRICT grade=" ++ toString r.strictGrade ++ "/100 status=" ++
      (if r.strictPassed then "PASS" else "FAIL") ++ " threshold=" ++ toString r.strictThreshold]
  let specLines := if r.specIssues.isEmpty then [] else
    ["[verify] Spec Findings"] ++
      r.specErrors.map (fun i => "  SPEC ERROR: " ++ i.message) ++
      r.specWarnings.map (fun i => "  SPEC WARN: " ++ i.message)
  let strictLines := if r.issues.isEmpty then [] else
    ["[verify] Strict Findings"] ++
      r.errors.map (fun i => "  STRICT ERROR: " ++ i.message) ++
      r.warnings.map (fun i => "  STRICT WARN: " ++ i.message)
  String.intercalate "\n" (header ++ specLines ++ strictLines)

/-- `verify_or_raise`: the raised `ValueError` becomes the `Except.error`
branch carrying the formatted report. -/
def verifyOrRaise (yamlSafeLoad : String → Except String YVal) (b : Bundle) :
    Except String VerificationResult :=
  let result := verify yamlSafeLoad b
  if result.isValid = false then
    Except.error (formatVerificationReport result b.dirName)
  else Except.ok result

/-- All three optional directory names are absent or directories (so the
optional-directory scan is silent). -/
def cleanOptionalDirs (b : Bundle) : Prop :=
  ∀ d ∈ OPTIONAL_DIRS, b.subpathKind [d] ≠ PathKind.file

/-- No line of the frontmatter text matches the YAML `@`-safety pattern. -/
def safeFrontmatterText (s : String) : Prop :=
  ∀ l ∈ pySplitlines s, yamlSafetyLineBad l = false

instance decCleanOptionalDirs (b : Bundle) : Decidable (cleanOptionalDirs b) :=
  inferInstanceAs (Decidable (∀ d ∈ OPTIONAL_DIRS, b.subpathKind [d] ≠ PathKind.file))

instance decSafeFrontmatterText (s : String) : Decidable (safeFrontmatterText s) :=
  inferInstanceAs (Decidable (∀ l ∈ pySplitlines s, yamlSafetyLineBad l = false))

/-- A frontmatter mapping satisfying every rule of both profiles. -/
def goodFm : List (YVal × YVal) :=
  [(.str "name", .str "my-skill"),
   (.str "description", .str "Does something useful and says when to use it."),
   (.str "triggers", .list [.str "deploy"]),
   (.str "references", .list [.str "references/api/a.md"]),
   (.str "activation", .map [(.str "mode", .str "strict"),
                             (.str "triggers", .list [.str "x"]),
                             (.str "priority", .str "normal")]),
   (.str "compatibility", .str "macOS 14"),
   (.str "metadata", .map [(.str "version", .str "1.0")])]

/-- A YAML oracle that parses the good bundle's frontmatter text to `goodFm`. -/
def goodOracle : String → Except String YVal := fun _ => .ok (.map goodFm)

/-- A bundle that passes both profiles with grade 100. -/
def goodBundle : Bundle where
  dirName := "my-skill"
  rootKind := .dir
  skillMdExists := true
  skillMdRead := .ok "---\nname: my-skill\n---\nUse this skill.\n"
  entries := [⟨"SKILL.md", false⟩, ⟨"references", true⟩]
  subpathKind := fun parts =>
    if parts = ["references"] then .dir
    else if parts = ["references", "api", "a.md"] then .file
    else .missing
  absKind := fun _ => .missing
  refFiles := [⟨["references", "api", "a.md"], some 50⟩]

/-- A bundle whose manifest lacks frontmatter delimiters while `scripts`
exists as a regular file. -/
def cex3Bundle : Bundle where
  dirName := "s"
  rootKind := .dir
  skillMdExists := true
  skillMdRead := .ok "hello"
  entries := [⟨"SKILL.md", false⟩, ⟨"scripts", false⟩]
  subpathKind := fun parts => if parts = ["scripts"] then .file else .missing
  absKind := fun _ => .missing
  refFiles := []

/-- A bundle with a clean layout whose manifest lacks frontmatter delimiters. -/
def cleanNoFmBundle : Bundle where
  dirName := "s"
  rootKind := .dir
  skillMdExists := true
  skillMdRead := .ok "hello"
  entries := [⟨"SKILL.md", false⟩]
  subpathKind := fun _ => .missing
  absKind := fun _ => .missing
  refFiles := []

/-- Frontmatter with `metadata: {skill_version: "1.0.0"}` and
`compatibility: "macOS 14+"` (the first example of claim C5). -/
def fmA : List (YVal × YVal) :=
  [(.str "metadata", .map [(.str "skill_version", .str "1.0.0")]),
   (.str "compatibility", .str "macOS 14+")]

/-- Frontmatter with only `metadata: {owner: "alice"}` (the second example of
claim C5). -/
def fmB : List (YVal × YVal) :=
  [(.str "metadata", .map [(.str "owner", .str "alice")])]

/-- Frontmatter whose top-level `compatibility` is the integer `5` (present
but not a string) with a digit-bearing version key. -/
def fmC5cex : List (YVal × YVal) :=
  [(.str "compatibility", .int 5),
   (.str "metadata", .map [(.str "skill_version", .str "1.0")])]

/-- A reference file `references/api/f<i>.md` with `n` lines. -/
def mkRef (i : Nat) (n : Nat) : RefFile :=
  ⟨["references", "api", "f" ++ toString i ++ ".md"], some n⟩

/-- Seven markdown reference files of which exactly three are under 100
lines. -/
def c6Files : List RefFile :=
  [mkRef 1 10, mkRef 2 10, mkRef 3 10, mkRef 4 200, mkRef 5 200, mkRef 6 200, mkRef 7 200]

/-- A bundle holding `c6Files` under an existing `references/` directory. -/
def c6Bundle : Bundle where
  dirName := "s"
  rootKind := .dir
  skillMdExists := true
  skillMdRead := .ok ""
  entries := []
  subpathKind := fun parts => if parts = ["references"] then .dir else .missing
  absKind := fun _ => .missing
  refFiles := c6Files

/-- A depth-2 reference file. -/
def c4FileDepth2 : RefFile := ⟨["references", "overview.md"], some 10⟩

/-- A depth-3 reference file under the valid category `misc`. -/
def c4FileMisc : RefFile := ⟨["references", "misc", "overview.md"], some 10⟩

/-- A depth-3 reference file with 801 lines. -/
def c4FileBig : RefFile := ⟨["references", "api", "big.md"], some 801⟩

/-- A bundle holding the three claim-C4 reference files. -/
def c4Bundle : Bundle where
  dirName := "s"
  rootKind := .dir
  skillMdExists := true
  skillMdRead := .ok ""
  entries := []
  subpathKind := fun parts => if parts = ["references"] then .dir else .missing
  absKind := fun _ => .missing
  refFiles := [c4FileDepth2, c4FileMisc, c4FileBig]

/-- A bundle whose manifest has a delimiter pair with only empty text between
the two `---` lines. -/
def b8Bundle : Bundle where
  dirName := "s"
  rootKind := .dir
  skillMdExists := true
  skillMdRead := .ok "---\n---\nbody text"
  entries := [⟨"SKILL.md", false⟩]
  subpathKind := fun _ => .missing
  absKind := fun _ => .missing
  refFiles := []

/-- Manifest text opening a fenced code block that is never closed, with 30
lines inside it. -/
def text10 : String :=
  String.intercalate "\n" ("```" :: List.replicate 30 "x")

/-- A top-level entry the layout scan warns about: not `.DS_Store` and not
one of the recognized top-level names. -/
def layoutUnexpected (e : Entry) : Bool :=
  !(e.name == ".DS_Store") && !(WORKFLOW_ALLOWED_TOPLEVEL.contains e.name)

/-! Helper lemmas: how each result-transforming primitive acts on the
projections of `VerificationResult`. -/

@[simp] theorem addError_issues (r : VerificationResult) (m : String) :
    (r.addError m).issues = r.issues ++ [⟨Level.error, m⟩] := rfl

@[simp] theorem addError_specIssues (r : VerificationResult) (m : String) :
    (r.addError m).specIssues = r.specIssues := rfl

@[simp] theorem addWarning_issues (r : VerificationResult) (m : String) :
    (r.addWarning m).issues = r.issues ++ [⟨Level.warning, m⟩] := rfl

@[simp] theorem addWarning_specIssues (r : VerificationResult) (m : String) :
    (r.addWarning m).specIssues = r.specIssues := rfl

@[simp] theorem addSpecError_issues (r : VerificationResult) (m : String) :
    (r.addSpecError m).issues = r.issues := rfl

@[simp] theorem addSpecError_specIssues (r : VerificationResult) (m : String) :
    (r.addSpecError m).specIssues = r.specIssues ++ [⟨Level.error, m⟩] := rfl

@[simp] theorem addSpecWarning_issues (r : VerificationResult) (m : String) :
    (r.addSpecWarning m).issues = r.issues := rfl

@[simp] theorem addSpecWarning_specIssues (r : VerificationResult) (m : String) :
    (r.addSpecWarning m).specIssues = r.specIssues ++ [⟨Level.warning, m⟩] := rfl

@[simp] theorem errors_addError (r : VerificationResult) (m : String) :
    (r.addError m).errors = r.errors ++ [⟨Level.error, m⟩] := by
  simp [VerificationResult.errors, VerificationResult.addError]

@[simp] theorem errors_addWarning (r : VerificationResult) (m : String) :
    (r.addWarning m).errors = r.errors := by
  simp [VerificationResult.errors, VerificationResult.addWarning]

@[simp] theorem warnings_addWarning (r : VerificationResult) (m : String) :
    (r.addWarning m).warnings = r.warnings ++ [⟨Level.warning, m⟩] := by
  simp [VerificationResult.warnings, VerificationResult.addWarning]

@[simp] theorem warnings_addError (r : VerificationResult) (m : String) :
    (r.addError m).warnings = r.warnings := by
  simp [VerificationResult.warnings, VerificationResult.addError]

@[simp] theorem specErrors_addSpecError (r : VerificationResult) (m : String) :
    (r.addSpecError m).specErrors = r.specErrors ++ [⟨Level.error, m⟩] := by
  simp [VerificationResult.specErrors, VerificationResult.addSpecError]

@[simp] theorem specErrors_addSpecWarning (r : VerificationResult) (m : String) :
    (r.addSpecWarning m).specErrors = r.specErrors := by
  simp [VerificationResult.specErrors, VerificationResult.addSpecWarning]

@[simp] theorem specErrors_addError (r : VerificationResult) (m : String) :
    (r.addError m).specErrors = r.specErrors := rfl

@[simp] theorem specErrors_addWarning (r : VerificationResult) (m : String) :
    (r.addWarning m).specErrors = r.specErrors := rfl

@[simp] theorem errors_addSpecError (r : VerificationResult) (m : String) :
    (r.addSpecError m).errors = r.errors := rfl

@[simp] theorem errors_addSpecWarning (r : VerificationResult) (m : String) :
    (r.addSpecWarning m).errors = r.errors := rfl

@[simp] theorem addError_strictThreshold (r : VerificationResult) (m : String) :
    (r.addError m).strictThreshold = r.strictThreshold := rfl

@[simp] theorem addWarning_strictThreshold (r : VerificationResult) (m : String) :
    (r.addWarning m).strictThreshold = r.strictThreshold := rfl

@[simp] theorem addSpecError_strictThreshold (r : VerificationResult) (m : String) :
    (r.addSpecError m).strictThreshold = r.strictThreshold := rfl

@[simp] theorem addSpecWarning_strictThreshold (r : VerificationResult) (m : String) :
    (r.addSpecWarning m).strictThreshold = r.strictThreshold := rfl

@[simp] theorem addError_frontmatter (r : VerificationResult) (m : String) :
    (r.addError m).frontmatter = r.frontmatter := rfl

@[simp] theorem addWarning_frontmatter (r : VerificationResult) (m : String) :
    (r.addWarning m).frontmatter = r.frontmatter := rfl

@[simp] theorem addSpecError_frontmatter (r : VerificationResult) (m : String) :
    (r.addSpecError m).frontmatter = r.frontmatter := rfl

@[simp] theorem addSpecWarning_frontmatter (r : VerificationResult) (m : String) :
    (r.addSpecWarning m).frontmatter = r.frontmatter := rfl

@[simp] theorem strictThreshold_ite (c : Prop) [Decidable c] (a b : VerificationResult) :
    (if c then a else b).strictThreshold = if c then a.strictThreshold else b.strictThreshold := by
  split <;> rfl

/-- Generic preservation of a projection through a left fold. -/
theorem foldl_pres {α β : Type} (proj : VerificationResult → β)
    {g : VerificationResult → α → VerificationResult}
    (hg : ∀ r x, proj (g r x) = proj r) :
    ∀ (l : List α) (r : VerificationResult), proj (l.foldl g r) = proj r := by
  intro l
  induction l with
  | nil => intro r; rfl
  | cons x xs ih => intro r; rw [List.foldl_cons, ih, hg]

/-! Projections of the grade finalizer. -/

theorem finalize_issues (r : VerificationResult) :
    (finalizeGrades r).issues = r.issues := rfl

theorem finalize_specIssues (r : VerificationResult) :
    (finalizeGrades r).specIssues = r.specIssues := rfl

theorem finalize_errors (r : VerificationResult) :
    (finalizeGrades r).errors = r.errors := rfl

theorem finalize_warnings (r : VerificationResult) :
    (finalizeGrades r).warnings = r.warnings := rfl

theorem finalize_specErrors (r : VerificationResult) :
    (finalizeGrades r).specErrors = r.specErrors := rfl

theorem finalize_specWarnings (r : VerificationResult) :
    (finalizeGrades r).specWarnings = r.specWarnings := rfl

theorem finalize_frontmatter (r : VerificationResult) :
    (finalizeGrades r).frontmatter = r.frontmatter := rfl

theorem finalize_specGrade (r : VerificationResult) :
    (finalizeGrades r).specGrade = calcGrade r.specErrors.length r.specWarnings.length 25 4 := rfl

theorem finalize_strictGrade (r : VerificationResult) :
    (finalizeGrades r).strictGrade = calcGrade r.errors.length r.warnings.length 15 3 := rfl

theorem finalize_specPassed (r : VerificationResult) :
    (finalizeGrades r).specPassed = (r.specErrors.length == 0) := rfl

theorem finalize_strictPassed (r : VerificationResult) :
    (finalizeGrades r).strictPassed =
      ((r.specErrors.length == 0) &&
        decide (calcGrade r.errors.length r.warnings.length 15 3 ≥ r.strictThreshold)) := rfl

/-! Per-validator preservation lemmas. -/

theorem thr_validateName (v : YVal) (p : String) (r : VerificationResult) :
    (validateName v p r).strictThreshold = r.strictThreshold := by
  cases v <;> simp only [validateName] <;> (repeat' split) <;> simp

theorem thr_validateDescription (v : YVal) (r : VerificationResult) :
    (validateDescription v r).strictThreshold = r.strictThreshold := by
  cases v <;> simp only [validateDescription] <;> (repeat' split) <;> simp

theorem thr_validateOptionalStringField (k : String) (v : YVal) (r : VerificationResult)
    (m : Option Nat) :
    (validateOptionalStringField k v r m).strictThreshold = r.strictThreshold := by
  cases v <;> simp only [validateOptionalStringField] <;> (repeat' split) <;> simp

theorem thr_validateMetadata (v : YVal) (r : VerificationResult) :
    (validateMetadata v r).strictThreshold = r.strictThreshold := by
  cases v <;> simp only [validateMetadata] <;> try rfl
  case map entries =>
    exact foldl_pres VerificationResult.strictThreshold
      (fun r kv => by rcases kv with ⟨k, val⟩; cases k <;> cases val <;> simp) _ r

theorem thr_validateMetadataSpec (v : YVal) (r : VerificationResult) :
    (validateMetadataSpec v r).strictThreshold = r.strictThreshold := by
  cases v <;> simp only [validateMetadataSpec] <;> try rfl
  case map entries =>
    exact foldl_pres VerificationResult.strictThreshold
      (fun r kv => by rcases kv with ⟨k, val⟩; cases k <;> cases val <;> simp) _ r

theorem thr_validateAllowedTools (v : YVal) (r : VerificationResult) :
    (validateAllowedTools v r).strictThreshold = r.strictThreshold := by
  cases v <;> simp only [validateAllowedTools] <;> (repeat' split) <;> simp

theorem thr_validateAllowedToolsSpec (v : YVal) (r : VerificationResult) :
    (validateAllowedToolsSpec v r).strictThreshold = r.strictThreshold := by
  cases v <;> simp only [validateAllowedToolsSpec] <;> (repeat' split) <;> simp

theorem thr_validateNameSpec (v : YVal) (p : String) (r : VerificationResult) :
    (validateNameSpec v p r).strictThreshold = r.strictThreshold := by
  cases v <;> simp only [validateNameSpec] <;> (repeat' split) <;> simp

theorem thr_validateDescriptionSpec (v : YVal) (r : VerificationResult) :
    (validateDescriptionSpec v r).strictThreshold = r.strictThreshold := by
  cases v <;> simp only [validateDescriptionSpec] <;> (repeat' split) <;> simp

theorem thr_validateOptionalStringFieldSpec (k : String) (v : YVal) (r : VerificationResult)
    (m : Option Nat) :
    (validateOptionalStringFieldSpec k v r m).strictThreshold = r.strictThreshold := by
  cases v <;> simp only [validateOptionalStringFieldSpec] <;> (repeat' split) <;> simp

theorem thr_validateOptionalDirs (b : Bundle) (r : VerificationResult) :
    (validateOptionalDirs b r).strictThreshold = r.strictThreshold := by
  exact foldl_pres VerificationResult.strictThreshold (fun r d => by split <;> simp) _ r

theorem thr_validateYamlFrontmatterSafety (s : String) (r : VerificationResult) :
    (validateYamlFrontmatterSafety s r).strictThreshold = r.strictThreshold := by
  exact foldl_pres VerificationResult.strictThreshold (fun r l => by split <;> simp) _ r

theorem thr_validateTopLevelLayout (es : List Entry) (r : VerificationResult) :
    (validateTopLevelLayout es r).strictThreshold = r.strictThreshold := by
  exact foldl_pres VerificationResult.strictThreshold
    (fun r c => by unfold layoutStep; (repeat' split) <;> (first | rfl | simp)) _ r

theorem thr_validateActivation (fm : List (YVal × YVal)) (r : VerificationResult) :
    (validateActivation fm r).strictThreshold = r.strictThreshold := by
  unfold validateActivation
  (repeat' split) <;> (first | rfl | simp)

theorem thr_validateVersionAndCompatibility (fm : List (YVal × YVal)) (r : VerificationResult) :
    (validateVersionAndCompatibility fm r).strictThreshold = r.strictThreshold := by
  unfold validateVersionAndCompatibility
  (repeat' split) <;> simp

theorem thr_taxonomyLoop (files : List RefFile) (r : VerificationResult) :
    (taxonomyLoop files r).strictThreshold = r.strictThreshold := by
  exact foldl_pres VerificationResult.strictThreshold
    (fun r f => by unfold taxonomyStep; (repeat' split) <;> (first | rfl | simp)) _ r

theorem thr_listedRefLoop (b : Bundle) (v : YVal) (r : VerificationResult) :
    (listedRefLoop b v r).strictThreshold = r.strictThreshold := by
  cases v <;> simp only [listedRefLoop] <;> try rfl
  case list refs =>
    exact foldl_pres VerificationResult.strictThreshold
      (fun r x => by cases x <;> simp only [] <;> (repeat' split) <;> simp) _ r

theorem thr_validateReferencesTaxonomyAndSizes (b : Bundle) (fm : List (YVal × YVal))
    (r : VerificationResult) :
    (validateReferencesTaxonomyAndSizes b fm r).strictThreshold = r.strictThreshold := by
  unfold validateReferencesTaxonomyAndSizes
  (repeat' split) <;>
    simp [thr_taxonomyLoop, thr_listedRefLoop]

theorem thr_validateBrainOnlyGuidance (t : String) (tot : Option Nat) (r : VerificationResult) :
    (validateBrainOnlyGuidance t tot r).strictThreshold = r.strictThreshold := by
  unfold validateBrainOnlyGuidance
  (repeat' split) <;> simp

theorem thr_listedRefExistenceLoop (b : Bundle) (rs : List YVal) (r : VerificationResult) :
    (listedRefExistenceLoop b rs r).strictThreshold = r.strictThreshold := by
  exact foldl_pres VerificationResult.strictThreshold
    (fun r x => by cases x <;> (first | rfl | simp)) _ r

theorem thr_versionActivationTail (fm : List (YVal × YVal)) (r : VerificationResult) :
    (validateVersionAndCompatibility fm (validateActivation fm r)).strictThreshold =
      r.strictThreshold := by
  rw [thr_validateVersionAndCompatibility, thr_validateActivation]

theorem thr_validateCustomFrontmatterConventions (fm : List (YVal × YVal)) (b : Bundle)
    (r : VerificationResult) :
    (validateCustomFrontmatterConventions fm b r).strictThreshold = r.strictThreshold := by
  unfold validateCustomFrontmatterConventions
  rcases hr : fmGet fm "references" with _ | _ | _ | _ | xs | _ <;>
    simp only [hr] <;> (repeat' split) <;>
    (first | rfl
           | simp [thr_versionActivationTail, thr_listedRefExistenceLoop]
           | (rw [thr_versionActivationTail]; (first | rfl | simp [thr_listedRefExistenceLoop])))

theorem thr_runSpecValidation (fm : List (YVal × YVal)) (d : String) (body : Option String)
    (r : VerificationResult) :
    (runSpecValidation fm d body r).strictThreshold = r.strictThreshold := by
  unfold runSpecValidation
  (repeat' split) <;>
    simp [thr_validateNameSpec, thr_validateDescriptionSpec, thr_validateOptionalStringFieldSpec,
      thr_validateMetadataSpec, thr_validateAllowedToolsSpec]

theorem thr_verifyParsed (b : Bundle) (text fmText body : String) (fm : List (YVal × YVal))
    (r : VerificationResult) :
    (verifyParsed b text fmText body fm r).strictThreshold = r.strictThreshold := by
  unfold verifyParsed
  rw [thr_validateBrainOnlyGuidance]
  simp only [strictThreshold_ite, addWarning_strictThreshold, ite_self]
  rw [thr_runSpecValidation, thr_validateReferencesTaxonomyAndSizes,
    thr_validateCustomFrontmatterConventions, thr_validateAllowedTools, thr_validateMetadata,
    thr_validateOptionalStringField, thr_validateOptionalStringField,
    thr_validateDescription, thr_validateName]

theorem thr_verifyWithText (y : String → Except String YVal) (b : Bundle) (text : String)
    (r : VerificationResult) :
    (verifyWithText y b text r).strictThreshold = r.strictThreshold := by
  unfold verifyWithText
  split
  · rfl
  · split
    · simp [thr_validateYamlFrontmatterSafety]
    · split <;> simp [thr_verifyParsed, thr_validateYamlFrontmatterSafety]

/-- The pipeline never changes the strict threshold: it stays at the
dataclass default 80. -/
theorem verifyPre_strictThreshold (y : String → Except String YVal) (b : Bundle) :
    (verifyPre y b).strictThreshold = 80 := by
  unfold verifyPre
  (repeat' split) <;>
    simp [thr_verifyWithText, thr_validateOptionalDirs, thr_validateTopLevelLayout]

/-- A fold whose step is the identity on every list element is the identity. -/
theorem foldl_id {α : Type} {g : VerificationResult → α → VerificationResult} :
    ∀ (l : List α), (∀ r x, x ∈ l → g r x = r) → ∀ r, l.foldl g r = r := by
  intro l
  induction l with
  | nil => intro _ r; rfl
  | cons x xs ih =>
    intro h r
    rw [List.foldl_cons, h r x (List.mem_cons_self x xs)]
    exact ih (fun r y hy => h r y (List.mem_cons_of_mem x hy)) r

theorem spec_validateOptionalDirs (b : Bundle) (r : VerificationResult) :
    (validateOptionalDirs b r).specIssues = r.specIssues := by
  exact foldl_pres VerificationResult.specIssues (fun r d => by split <;> simp) _ r

theorem spec_validateTopLevelLayout (es : List Entry) (r : VerificationResult) :
    (validateTopLevelLayout es r).specIssues = r.specIssues := by
  exact foldl_pres VerificationResult.specIssues
    (fun r c => by unfold layoutStep; (repeat' split) <;> (first | rfl | simp)) _ r

theorem spec_validateYamlFrontmatterSafety (s : String) (r : VerificationResult) :
    (validateYamlFrontmatterSafety s r).specIssues = r.specIssues := by
  exact foldl_pres VerificationResult.specIssues (fun r l => by split <;> simp) _ r

theorem errors_validateTopLevelLayout (es : List Entry) (r : VerificationResult) :
    (validateTopLevelLayout es r).errors = r.errors := by
  exact foldl_pres VerificationResult.errors
    (fun r c => by unfold layoutStep; (repeat' split) <;> (first | rfl | simp)) _ r

theorem frontmatter_validateOptionalDirs (b : Bundle) (r : VerificationResult) :
    (validateOptionalDirs b r).frontmatter = r.frontmatter := by
  exact foldl_pres VerificationResult.frontmatter (fun r d => by split <;> simp) _ r

theorem frontmatter_validateTopLevelLayout (es : List Entry) (r : VerificationResult) :
    (validateTopLevelLayout es r).frontmatter = r.frontmatter := by
  exact foldl_pres VerificationResult.frontmatter
    (fun r c => by unfold layoutStep; (repeat' split) <;> (first | rfl | simp)) _ r

theorem frontmatter_validateYamlFrontmatterSafety (s : String) (r : VerificationResult) :
    (validateYamlFrontmatterSafety s r).frontmatter = r.frontmatter := by
  exact foldl_pres VerificationResult.frontmatter (fun r l => by split <;> simp) _ r

/-- When none of the optional directory names exists as a non-directory, the
optional-directory scan adds nothing. -/
theorem validateOptionalDirs_clean (b : Bundle) (r : VerificationResult)
    (h : cleanOptionalDirs b) : validateOptionalDirs b r = r := by
  unfold validateOptionalDirs
  exact foldl_id _ (fun r d hd => by rw [if_neg (h d hd)]) r

/-- When no frontmatter line matches the `@`-safety pattern, the safety scan
adds nothing. -/
theorem validateYamlFrontmatterSafety_safe (s : String) (r : VerificationResult)
    (h : safeFrontmatterText s) : validateYamlFrontmatterSafety s r = r := by
  unfold validateYamlFrontmatterSafety
  exact foldl_id _ (fun r l hl => by rw [h l hl]; simp) r

/-- Claim C1: for every input directory (and any behaviour of the YAML
parser), the result of `verify_skill_directory` satisfies
`strict_passed → spec_passed`; it is never the case that `strict_passed`
holds while `spec_passed` fails. -/
theorem C1_strict_implies_spec (y : String → Except String YVal) (b : Bundle)
    (h : (verify y b).strictPassed = true) : (verify y b).specPassed = true := by
  unfold verify at h ⊢
  rw [finalize_strictPassed] at h
  rw [finalize_specPassed]
  rw [Bool.and_eq_true] at h
  exact h.1

/-- Witness for C1 at a concrete bundle that passes the strict gate. -/
theorem C1_witness :
    (verify goodOracle goodBundle).strictPassed = true ∧
      (verify goodOracle goodBundle).specPassed = true :=
  ⟨by decide, C1_strict_implies_spec goodOracle goodBundle (by decide)⟩

/-- Claim C2: the two grades follow the clamped weighted-deduction formula
with weights 25/4 (spec) and 15/3 (strict); `spec_passed` holds exactly when
there are no spec errors; `strict_passed` holds exactly when `spec_passed`
holds and the strict grade reaches 80; and the grade formula is monotonically
non-increasing in both counts for fixed non-negative weights. -/
theorem C2_grading (y : String → Except String YVal) (b : Bundle) :
    (verify y b).specGrade =
      calcGrade (verify y b).specErrors.length (verify y b).specWarnings.length 25 4
  ∧ (verify y b).strictGrade =
      calcGrade (verify y b).errors.length (verify y b).warnings.length 15 3
  ∧ ((verify y b).specPassed = true ↔ (verify y b).specErrors.length = 0)
  ∧ ((verify y b).strictPassed = true ↔
      ((verify y b).specPassed = true ∧ (verify y b).strictGrade ≥ 80))
  ∧ (∀ (e e' w w' : Nat) (ew ww : Int), 0 ≤ ew → 0 ≤ ww → e ≤ e' → w ≤ w' →
      calcGrade e' w' ew ww ≤ calcGrade e w ew ww) := by
  refine ⟨rfl, rfl, ?_, ?_, ?_⟩
  · unfold verify
    rw [finalize_specPassed, finalize_specErrors]
    simp
  · unfold verify
    rw [finalize_strictPassed, finalize_specPassed, finalize_strictGrade,
      verifyPre_strictThreshold]
    simp [Bool.and_eq_true]
  · intro e e' w w' ew ww hew hww he hw
    have h1 : (e : Int) * ew ≤ (e' : Int) * ew :=
      mul_le_mul_of_nonneg_right (by exact_mod_cast he) hew
    have h2 : (w : Int) * ww ≤ (w' : Int) * ww :=
      mul_le_mul_of_nonneg_right (by exact_mod_cast hw) hww
    simp only [calcGrade]
    split_ifs <;> linarith

/-- Witness for C2 at concrete counts and weights. -/
theorem C2_witness : calcGrade 3 2 25 4 ≤ calcGrade 1 1 25 4 :=
  (C2_grading goodOracle goodBundle).2.2.2.2 1 3 1 2 25 4 (by decide) (by decide)
    (by decide) (by decide)

/-- Counts and gates of a structural-failure exit: every such exit finalizes
`(X.addError m).addSpecError m` for the accumulated result `X`. -/
theorem structuralFail (X : VerificationResult) (m : String) (hspec : X.specIssues = []) :
    (finalizeGrades ((X.addError m).addSpecError m)).specErrors.length = 1 ∧
    (finalizeGrades ((X.addError m).addSpecError m)).specPassed = false ∧
    (finalizeGrades ((X.addError m).addSpecError m)).strictPassed = false ∧
    (finalizeGrades ((X.addError m).addSpecError m)).errors.length = X.errors.length + 1 := by
  have h1 : ((X.addError m).addSpecError m).specIssues = [⟨Level.error, m⟩] := by simp [hspec]
  refine ⟨?_, ?_, ?_, ?_⟩
  · rw [finalize_specErrors, VerificationResult.specErrors, h1]; rfl
  · rw [finalize_specPassed, VerificationResult.specErrors, h1]; rfl
  · rw [finalize_strictPassed, VerificationResult.specErrors, h1]; rfl
  · rw [finalize_errors]
    simp [VerificationResult.errors, VerificationResult.addError, VerificationResult.addSpecError]

/-- The strict-profile prologue (optional-dirs scan then top-level layout
scan) leaves the spec finding list untouched. -/
theorem prologue_specIssues (b : Bundle) :
    (validateTopLevelLayout b.entries (validateOptionalDirs b ({} : VerificationResult))).specIssues = [] := by
  rw [spec_validateTopLevelLayout, spec_validateOptionalDirs]

/-- Under a clean layout the strict-profile prologue records no errors. -/
theorem prologue_errors_clean (b : Bundle) (h : cleanOptionalDirs b) :
    (validateTopLevelLayout b.entries (validateOptionalDirs b ({} : VerificationResult))).errors = [] := by
  rw [errors_validateTopLevelLayout, validateOptionalDirs_clean b _ h]; rfl

/-- Claim C3 counterexample: a bundle whose manifest has no frontmatter
delimiters but whose `scripts` entry is a regular file has two strict errors,
not one. -/
theorem C3_counterexample :
    cex3Bundle.skillMdRead = ReadResult.ok "hello"
  ∧ splitFrontmatter "hello" = none
  ∧ (verify goodOracle cex3Bundle).specErrors.length = 1
  ∧ (verify goodOracle cex3Bundle).errors.length = 2 := by
  refine ⟨rfl, by decide, by decide, by decide⟩

/-- Claim C3 (amended): every structural failure short-circuits with exactly
one spec error, `spec_passed = false` and `strict_passed = false`.  The
strict error list holds the one structural error plus any strict findings of
the scans that already ran: for a missing directory or missing manifest it
always has exactly one entry; for an undecodable manifest or missing
frontmatter delimiters it has exactly one entry whenever none of
`scripts`/`references`/`assets` exists as a non-directory; for invalid YAML
or a non-mapping frontmatter it has exactly one entry whenever, in addition,
no frontmatter line matches the `- @` safety pattern (that scan runs before
the parse). -/
theorem C3_amended (y : String → Except String YVal) (b : Bundle) :
    (b.rootKind ≠ PathKind.dir →
      (verify y b).specErrors.length = 1 ∧ (verify y b).errors.length = 1 ∧
      (verify y b).specPassed = false ∧ (verify y b).strictPassed = false)
  ∧ (b.rootKind = PathKind.dir → b.skillMdExists = false →
      (verify y b).specErrors.length = 1 ∧ (verify y b).errors.length = 1 ∧
      (verify y b).specPassed = false ∧ (verify y b).strictPassed = false)
  ∧ (b.rootKind = PathKind.dir → b.skillMdExists = true →
      b.skillMdRead = ReadResult.notUtf8 →
      (verify y b).specErrors.length = 1 ∧ (verify y b).specPassed = false ∧
      (verify y b).strictPassed = false ∧
      (cleanOptionalDirs b → (verify y b).errors.length = 1))
  ∧ (∀ t, b.rootKind = PathKind.dir → b.skillMdExists = true →
      b.skillMdRead = ReadResult.ok t → splitFrontmatter t = none →
      (verify y b).specErrors.length = 1 ∧ (verify y b).specPassed = false ∧
      (verify y b).strictPassed = false ∧
      (cleanOptionalDirs b → (verify y b).errors.length = 1))
  ∧ (∀ t fmText body e, b.rootKind = PathKind.dir → b.skillMdExists = true →
      b.skillMdRead = ReadResult.ok t → splitFrontmatter t = some (fmText, body) →
      (pyStrip fmText).isEmpty = false → y fmText = Except.error e →
      (verify y b).specErrors.length = 1 ∧ (verify y b).specPassed = false ∧
      (verify y b).strictPassed = false ∧
      (cleanOptionalDirs b → safeFrontmatterText fmText → (verify y b).errors.length = 1))
  ∧ (∀ t fmText body v, b.rootKind = PathKind.dir → b.skillMdExists = true →
      b.skillMdRead = ReadResult.ok t → splitFrontmatter t = some (fmText, body) →
      (if (pyStrip fmText).isEmpty then Except.ok YVal.null else y fmText) = Except.ok v →
      (∀ fm, v ≠ YVal.map fm) →
      (verify y b).specErrors.length = 1 ∧ (verify y b).specPassed = false ∧
      (verify y b).strictPassed = false ∧
      (cleanOptionalDirs b → safeFrontmatterText fmText → (verify y b).errors.length = 1)) := by
  refine ⟨?_, ?_, ?_, ?_, ?_, ?_⟩
  · intro hroot
    have hv : verify y b =
        finalizeGrades ((({} : VerificationResult).addError (notDirMsg b.dirName)).addSpecError
          (notDirMsg b.dirName)) := by
      unfold verify verifyPre
      rw [if_pos hroot]
    rw [hv]
    obtain ⟨h1, h2, h3, h4⟩ := structuralFail {} (notDirMsg b.dirName) rfl
    exact ⟨h1, by rw [h4]; rfl, h2, h3⟩
  · intro hroot hmd
    have hv : verify y b =
        finalizeGrades ((({} : VerificationResult).addError missingManifestMsg).addSpecError
          missingManifestMsg) := by
      unfold verify verifyPre
      rw [if_neg (by simp [hroot]), if_pos hmd]
    rw [hv]
    obtain ⟨h1, h2, h3, h4⟩ := structuralFail {} missingManifestMsg rfl
    exact ⟨h1, by rw [h4]; rfl, h2, h3⟩
  · intro hroot hmd hread
    have hv : verify y b =
        finalizeGrades
          (((validateTopLevelLayout b.entries (validateOptionalDirs b {})).addError
            notUtf8Msg).addSpecError notUtf8Msg) := by
      unfold verify verifyPre
      rw [if_neg (by simp [hroot]), if_neg (by simp [hmd]), hread]
    rw [hv]
    obtain ⟨h1, h2, h3, h4⟩ := structuralFail _ notUtf8Msg (prologue_specIssues b)
    refine ⟨h1, h2, h3, fun hc => ?_⟩
    rw [h4, prologue_errors_clean b hc]
    rfl
  · intro t hroot hmd hread hsplit
    have hv : verify y b =
        finalizeGrades
          (((validateTopLevelLayout b.entries (validateOptionalDirs b {})).addError
            fmDelimMsg).addSpecError fmDelimMsg) := by
      unfold verify verifyPre verifyWithText
      rw [if_neg (by simp [hroot]), if_neg (by simp [hmd]), hread]
      dsimp only
      rw [hsplit]
    rw [hv]
    obtain ⟨h1, h2, h3, h4⟩ := structuralFail _ fmDelimMsg (prologue_specIssues b)
    refine ⟨h1, h2, h3, fun hc => ?_⟩
    rw [h4, prologue_errors_clean b hc]
    rfl
  · intro t fmText body e hroot hmd hread hsplit hne hparse
    have hv : verify y b =
        finalizeGrades
          (((validateYamlFrontmatterSafety fmText
              { validateTopLevelLayout b.entries (validateOptionalDirs b {}) with
                body := some body }).addError
            ("Invalid YAML frontmatter in SKILL.md: " ++ e)).addSpecError
            ("Invalid YAML frontmatter in SKILL.md: " ++ e)) := by
      unfold verify verifyPre verifyWithText
      rw [if_neg (by simp [hroot]), if_neg (by simp [hmd]), hread]
      dsimp only
      rw [hsplit]
      dsimp only
      rw [if_neg (by simp [hne]), hparse]
    rw [hv]
    obtain ⟨h1, h2, h3, h4⟩ := structuralFail
      (validateYamlFrontmatterSafety fmText
        { validateTopLevelLayout b.entries (validateOptionalDirs b ({} : VerificationResult)) with
          body := some body })
      ("Invalid YAML frontmatter in SKILL.md: " ++ e)
      (by rw [spec_validateYamlFrontmatterSafety]; exact prologue_specIssues b)
    refine ⟨h1, h2, h3, fun hc hs => ?_⟩
    rw [h4, validateYamlFrontmatterSafety_safe fmText _ hs]
    have : ({ validateTopLevelLayout b.entries (validateOptionalDirs b {}) with
        body := some body } : VerificationResult).errors =
        (validateTopLevelLayout b.entries (validateOptionalDirs b {})).errors := rfl
    rw [this, prologue_errors_clean b hc]
    rfl
  · intro t fmText body v hroot hmd hread hsplit hparse hnm
    have hv : verify y b =
        finalizeGrades
          (((validateYamlFrontmatterSafety fmText
              { validateTopLevelLayout b.entries (validateOptionalDirs b {}) with
                body := some body }).addError fmMappingMsg).addSpecError fmMappingMsg) := by
      unfold verify verifyPre verifyWithText
      rw [if_neg (by simp [hroot]), if_neg (by simp [hmd]), hread]
      dsimp only
      rw [hsplit]
      dsimp only
      rw [hparse]
      cases v with
      | map fm => exact absurd rfl (hnm fm)
      | null => rfl
      | bool bb => rfl
      | int n => rfl
      | str s => rfl
      | list xs => rfl
    rw [hv]
    obtain ⟨h1, h2, h3, h4⟩ := structuralFail
      (validateYamlFrontmatterSafety fmText
        { validateTopLevelLayout b.entries (validateOptionalDirs b ({} : VerificationResult)) with
          body := some body })
      fmMappingMsg
      (by rw [spec_validateYamlFrontmatterSafety]; exact prologue_specIssues b)
    refine ⟨h1, h2, h3, fun hc hs => ?_⟩
    rw [h4, validateYamlFrontmatterSafety_safe fmText _ hs]
    have : ({ validateTopLevelLayout b.entries (validateOptionalDirs b {}) with
        body := some body } : VerificationResult).errors =
        (validateTopLevelLayout b.entries (validateOptionalDirs b {})).errors := rfl
    rw [this, prologue_errors_clean b hc]
    rfl

/-- Witness for C3 at concrete bundles: a missing-manifest bundle and a clean
no-frontmatter bundle, each with exactly one error per profile. -/
theorem C3_witness :
    ((verify goodOracle { cleanNoFmBundle with skillMdExists := false }).specErrors.length = 1 ∧
     (verify goodOracle { cleanNoFmBundle with skillMdExists := false }).errors.length = 1 ∧
     (verify goodOracle { cleanNoFmBundle with skillMdExists := false }).specPassed = false ∧
     (verify goodOracle { cleanNoFmBundle with skillMdExists := false }).strictPassed = false)
  ∧ ((verify goodOracle cleanNoFmBundle).specErrors.length = 1 ∧
     (verify goodOracle cleanNoFmBundle).specPassed = false ∧
     (verify goodOracle cleanNoFmBundle).strictPassed = false ∧
     (verify goodOracle cleanNoFmBundle).errors.length = 1) := by
  constructor
  · exact (C3_amended goodOracle _).2.1 rfl rfl
  · have h := (C3_amended goodOracle cleanNoFmBundle).2.2.2.1 "hello" rfl rfl rfl (by decide)
    exact ⟨h.1, h.2.1, h.2.2.1, h.2.2.2 (by decide)⟩

/-- Claim C7 counterexample: `.DS_Store` is not a recognized top-level name,
yet the layout scan emits no warning for it (it is silently skipped). -/
theorem C7_counterexample :
    WORKFLOW_ALLOWED_TOPLEVEL.contains ".DS_Store" = false
  ∧ (validateTopLevelLayout [⟨".DS_Store", false⟩] {}).issues = [] := by
  exact ⟨by decide, by decide⟩

/-- Claim C7 (amended): the layout scan emits exactly one warning for every
top-level entry other than `.DS_Store` whose name is not recognized
(`.DS_Store` is skipped silently), never an error, and never touches the spec
finding list — so by itself it cannot fail the spec gate or block
verification. -/
theorem C7_amended (es : List Entry) (r : VerificationResult) :
    (validateTopLevelLayout es r).specIssues = r.specIssues
  ∧ (validateTopLevelLayout es r).errors = r.errors
  ∧ (validateTopLevelLayout es r).warnings.length =
      r.warnings.length + (es.filter layoutUnexpected).length := by
  refine ⟨spec_validateTopLevelLayout es r, errors_validateTopLevelLayout es r, ?_⟩
  induction es generalizing r with
  | nil => simp [validateTopLevelLayout]
  | cons c cs ih =>
    unfold validateTopLevelLayout at ih ⊢
    rw [List.foldl_cons, ih, List.filter_cons]
    unfold layoutStep layoutUnexpected
    by_cases h1 : c.name = ".DS_Store"
    · simp [h1]
    · by_cases h2 : c.name ∈ WORKFLOW_ALLOWED_TOPLEVEL
      · simp [h1, h2]
      · by_cases h3 : c.isDir = true <;> simp [h1, h2, h3] <;> omega

/-- The two version-governance error messages are distinct. -/
theorem compatGov_ne_unpinned : compatGovMsg ≠ unpinnedMsg := by decide

/-- The two version-governance error messages are distinct (other order). -/
theorem unpinned_ne_compatGov : unpinnedMsg ≠ compatGovMsg := by decide

/-- Claim C5 counterexample: when the top-level `compatibility` is present but
not a string (here the integer 5) and `metadata.compatibility` is absent, the
claim requires a version-governance error, yet the code records none (it only
tests `compatibility is None`). -/
theorem C5_counterexample :
    (fmGet fmC5cex "compatibility").isStr = false
  ∧ (metadataCompatOf fmC5cex).isNull = true
  ∧ (validateVersionAndCompatibility fmC5cex {}).issues = [] := by
  exact ⟨by decide, by decide, by decide⟩

/-- Claim C5 (amended): the compatibility-governance error is recorded iff the
top-level `compatibility` is absent (`None`) — any present value, string or
not, suffices — and `metadata.compatibility` is neither a non-blank string
nor a non-empty mapping; the unpinned-version error is recorded iff no
metadata key containing "version" (case-insensitively) has a non-blank string
value with a digit and the `compatibility` value is not a digit-bearing
string.  The two examples of the claim behave as stated. -/
theorem C5_amended (fm : List (YVal × YVal)) :
    ((⟨Level.error, compatGovMsg⟩ : VerificationIssue) ∈
        (validateVersionAndCompatibility fm {}).issues ↔
      ((fmGet fm "compatibility").isNull = true ∧ hasMetadataCompat fm = false))
  ∧ ((⟨Level.error, unpinnedMsg⟩ : VerificationIssue) ∈
        (validateVersionAndCompatibility fm {}).issues ↔
      versionPinned fm = false)
  ∧ (validateVersionAndCompatibility fmA {}).issues = []
  ∧ (validateVersionAndCompatibility fmB {}).issues =
      [⟨Level.error, compatGovMsg⟩, ⟨Level.error, unpinnedMsg⟩] := by
  refine ⟨?_, ?_, by decide, by decide⟩
  · unfold validateVersionAndCompatibility
    by_cases h1 : (fmGet fm "compatibility").isNull = true <;>
      by_cases h2 : hasMetadataCompat fm = true <;>
        by_cases h3 : versionPinned fm = true <;>
          simp [h1, h2, h3, VerificationResult.addError, compatGov_ne_unpinned]
  · unfold validateVersionAndCompatibility
    by_cases h1 : (fmGet fm "compatibility").isNull = true <;>
      by_cases h2 : hasMetadataCompat fm = true <;>
        by_cases h3 : versionPinned fm = true <;>
          simp [h1, h2, h3, VerificationResult.addError, unpinned_ne_compatGov]

/-- Every finding of the taxonomy-and-size loop is an error. -/
theorem level_refFileFindings (f : RefFile) :
    ∀ i ∈ refFileFindings f, i.level = Level.error := by
  intro i hi
  unfold refFileFindings at hi
  split at hi
  · simp_all
  · rcases List.mem_append.mp hi with h | h
    · revert h; split <;> intro h <;> simp_all
    · revert h
      split
      · intro h; simp_all
      · split <;> intro h <;> simp_all

/-- The taxonomy-and-size loop body appends exactly the findings computed by
`refFileFindings`. -/
theorem taxonomyStep_issues (r : VerificationResult) (f : RefFile) :
    (taxonomyStep r f).issues = r.issues ++ refFileFindings f := by
  unfold taxonomyStep refFileFindings
  split
  · simp
  · dsimp only
    (repeat' split) <;> simp

/-- The taxonomy-and-size loop appends the concatenation of the per-file
findings. -/
theorem taxonomyLoop_issues :
    ∀ (files : List RefFile) (r : VerificationResult),
      (taxonomyLoop files r).issues = r.issues ++ files.flatMap refFileFindings := by
  intro files
  unfold taxonomyLoop
  induction files with
  | nil => intro r; simp
  | cons f fs ih =>
    intro r
    rw [List.foldl_cons, ih, taxonomyStep_issues, List.flatMap_cons, List.append_assoc]

/-- Generic membership preservation through a left fold whose steps only
append findings. -/
theorem foldl_issues_mono {α : Type} {g : VerificationResult → α → VerificationResult}
    (hg : ∀ r x, ∃ d, (g r x).issues = r.issues ++ d) :
    ∀ (l : List α) (r : VerificationResult) (i : VerificationIssue),
      i ∈ r.issues → i ∈ (List.foldl g r l).issues := by
  intro l
  induction l with
  | nil => intro r i hi; exact hi
  | cons x xs ih =>
    intro r i hi
    rw [List.foldl_cons]
    apply ih
    obtain ⟨d, hd⟩ := hg r x
    rw [hd]
    exact List.mem_append_left _ hi

/-- The listed-references loop only appends findings. -/
theorem listedRefLoop_mono (b : Bundle) (v : YVal) (r : VerificationResult)
    (i : VerificationIssue) (hi : i ∈ r.issues) : i ∈ (listedRefLoop b v r).issues := by
  cases v <;> try exact hi
  case list refs =>
    apply foldl_issues_mono _ refs r i hi
    intro r x
    cases x <;> dsimp only <;> (repeat' split) <;>
      (first | exact ⟨[], (List.append_nil _).symm⟩ | exact ⟨_, rfl⟩)

/-- Membership of a warning is invariant under `add_error`. -/
theorem mem_warning_addError (r : VerificationResult) (m m' : String) :
    ((⟨Level.warning, m⟩ : VerificationIssue) ∈ (r.addError m').issues) ↔
      (⟨Level.warning, m⟩ : VerificationIssue) ∈ r.issues := by
  simp [VerificationResult.addError]

/-- Generic warning-membership invariance through a left fold of steps that
only add errors. -/
theorem foldl_warning_mem {α : Type} {g : VerificationResult → α → VerificationResult}
    (hg : ∀ (r : VerificationResult) (x : α) (m : String),
      ((⟨Level.warning, m⟩ : VerificationIssue) ∈ (g r x).issues) ↔
        (⟨Level.warning, m⟩ : VerificationIssue) ∈ r.issues) :
    ∀ (l : List α) (r : VerificationResult) (m : String),
      ((⟨Level.warning, m⟩ : VerificationIssue) ∈ (List.foldl g r l).issues) ↔
        (⟨Level.warning, m⟩ : VerificationIssue) ∈ r.issues := by
  intro l
  induction l with
  | nil => intro r m; exact Iff.rfl
  | cons x xs ih =>
    intro r m
    rw [List.foldl_cons, ih, hg]

/-- The listed-references loop adds no warnings. -/
theorem warning_listedRefLoop (b : Bundle) (v : YVal) (r : VerificationResult) (m : String) :
    ((⟨Level.warning, m⟩ : VerificationIssue) ∈ (listedRefLoop b v r).issues) ↔
      (⟨Level.warning, m⟩ : VerificationIssue) ∈ r.issues := by
  cases v <;> try exact Iff.rfl
  case list refs =>
    apply foldl_warning_mem _ refs r m
    intro r x m
    cases x <;> dsimp only <;> (repeat' split) <;>
      (first | exact Iff.rfl | exact mem_warning_addError r m _)

/-- The taxonomy-and-size loop adds no warnings. -/
theorem warning_taxonomyLoop (files : List RefFile) (r : VerificationResult) (m : String) :
    ((⟨Level.warning, m⟩ : VerificationIssue) ∈ (taxonomyLoop files r).issues) ↔
      (⟨Level.warning, m⟩ : VerificationIssue) ∈ r.issues := by
  rw [taxonomyLoop_issues, List.mem_append]
  constructor
  · rintro (h | h)
    · exact h
    · exfalso
      obtain ⟨f, hf, hi⟩ := List.mem_flatMap.mp h
      have := level_refFileFindings f _ hi
      simp at this
  · exact Or.inl

/-- With an existing `references/` directory the reference validator reduces
to the two loops followed by the fragmentation guard. -/
theorem validateRefs_unfold_dir (b : Bundle) (fm : List (YVal × YVal)) (r : VerificationResult)
    (hdir : b.subpathKind ["references"] = PathKind.dir) :
    validateReferencesTaxonomyAndSizes b fm r =
      (if decide ((mdRefFiles b.refFiles).length ≥ 5) &&
          decide (microCount b.refFiles ≥ max 3 ((mdRefFiles b.refFiles).length / 2)) then
        (listedRefLoop b (fmGet fm "references")
          (taxonomyLoop (mdRefFiles b.refFiles) r)).addWarning fragWarnMsg
      else
        listedRefLoop b (fmGet fm "references") (taxonomyLoop (mdRefFiles b.refFiles) r)) := by
  unfold validateReferencesTaxonomyAndSizes
  rw [if_neg (by simp [hdir]), if_neg (by simp [hdir]), if_neg (by simp [hdir])]

/-- Facts appended by the taxonomy loop survive to the validator output. -/
theorem mem_validateRefs_of (b : Bundle) (fm : List (YVal × YVal)) (r : VerificationResult)
    (hdir : b.subpathKind ["references"] = PathKind.dir) (i : VerificationIssue)
    (hi : i ∈ (taxonomyLoop (mdRefFiles b.refFiles) r).issues) :
    i ∈ (validateReferencesTaxonomyAndSizes b fm r).issues := by
  rw [validateRefs_unfold_dir b fm r hdir]
  have h2 := listedRefLoop_mono b (fmGet fm "references") _ i hi
  split
  · rw [addWarning_issues]
    exact List.mem_append_left _ h2
  · exact h2

/-- Claim C6 counterexample: with seven markdown reference files of which
only three (fewer than half) are under 100 lines, the fragmentation warning
is still emitted, because the code threshold is `max(3, n // 2)`. -/
theorem C6_counterexample :
    (mdRefFiles c6Files).length = 7
  ∧ microCount c6Files = 3
  ∧ 2 * microCount c6Files < (mdRefFiles c6Files).length
  ∧ (⟨Level.warning, fragWarnMsg⟩ : VerificationIssue) ∈
      (validateReferencesTaxonomyAndSizes c6Bundle [] {}).issues := by
  exact ⟨by decide, by decide, by decide, by decide⟩

/-- Claim C6 (amended): with an existing `references/` directory, the
fragmentation warning is emitted iff at least 5 markdown reference files
exist and at least `max(3, n / 2)` of them are decodable with fewer than 100
lines (for odd `n ≥ 7` this threshold is below "half of n"). -/
theorem C6_amended (b : Bundle) (fm : List (YVal × YVal))
    (hdir : b.subpathKind ["references"] = PathKind.dir) :
    ((⟨Level.warning, fragWarnMsg⟩ : VerificationIssue) ∈
        (validateReferencesTaxonomyAndSizes b fm {}).issues) ↔
      ((mdRefFiles b.refFiles).length ≥ 5 ∧
        microCount b.refFiles ≥ max 3 ((mdRefFiles b.refFiles).length / 2)) := by
  rw [validateRefs_unfold_dir b fm {} hdir]
  split
  · rename_i hcond
    rw [Bool.and_eq_true, decide_eq_true_iff, decide_eq_true_iff] at hcond
    apply iff_of_true _ hcond
    rw [addWarning_issues]
    exact List.mem_append_right _ (by simp)
  · rename_i hcond
    rw [Bool.and_eq_true] at hcond
    apply iff_of_false
    · rw [warning_listedRefLoop, warning_taxonomyLoop]
      simp
    · intro ⟨ha, hb⟩
      exact hcond ⟨decide_eq_true ha, decide_eq_true hb⟩

/-- Witness for C6 at the concrete seven-file bundle. -/
theorem C6_witness :
    (⟨Level.warning, fragWarnMsg⟩ : VerificationIssue) ∈
      (validateReferencesTaxonomyAndSizes c6Bundle [] {}).issues :=
  (C6_amended c6Bundle [] (by decide)).mpr (by decide)

/-- Findings of one file enter the taxonomy-loop output. -/
theorem mem_taxonomyLoop_of (files : List RefFile) (r : VerificationResult) (f : RefFile)
    (hf : f ∈ files) (i : VerificationIssue) (hi : i ∈ refFileFindings f) :
    i ∈ (taxonomyLoop files r).issues := by
  rw [taxonomyLoop_issues]
  exact List.mem_append_right _ (List.mem_flatMap.mpr ⟨f, hf, hi⟩)

/-- Claim C4: under the strict profile, for every markdown file under
`references/` (with the directory present): a relative depth below 3 yields
the taxonomy-folder error; a second path segment outside the ten categories
yields the invalid-category error; at depth ≥ 3 under a valid category the
loop yields no taxonomy finding (only the decodability/size check remains);
and any decodable file exceeding 800 lines yields an error (the size error at
depth ≥ 3, the taxonomy error below depth 3). -/
theorem C4_taxonomy (b : Bundle) (fm : List (YVal × YVal)) (f : RefFile)
    (hdir : b.subpathKind ["references"] = PathKind.dir)
    (hf : f ∈ mdRefFiles b.refFiles) :
    (f.parts.length < 3 →
      (⟨Level.error, refDepthErrMsg f.parts⟩ : VerificationIssue) ∈
        (validateReferencesTaxonomyAndSizes b fm {}).issues)
  ∧ (3 ≤ f.parts.length → f.parts.getD 1 "" ∉ WORKFLOW_REFERENCE_TAXONOMY →
      (⟨Level.error, refCategoryErrMsg f.parts⟩ : VerificationIssue) ∈
        (validateReferencesTaxonomyAndSizes b fm {}).issues)
  ∧ (3 ≤ f.parts.length → f.parts.getD 1 "" ∈ WORKFLOW_REFERENCE_TAXONOMY →
      refFileFindings f =
        (match f.lineCount with
         | none => [⟨Level.error, refDecodeErrMsg f.parts⟩]
         | some n =>
           if n > 800 then [⟨Level.error, refSizeErrMsg f.parts n⟩] else []))
  ∧ (∀ n, f.lineCount = some n → n > 800 →
      ((⟨Level.error, refDepthErrMsg f.parts⟩ : VerificationIssue) ∈
          (validateReferencesTaxonomyAndSizes b fm {}).issues ∨
        (⟨Level.error, refSizeErrMsg f.parts n⟩ : VerificationIssue) ∈
          (validateReferencesTaxonomyAndSizes b fm {}).issues)) := by
  refine ⟨?_, ?_, ?_, ?_⟩
  · intro hlen
    apply mem_validateRefs_of b fm {} hdir
    apply mem_taxonomyLoop_of _ _ f hf
    unfold refFileFindings
    rw [if_pos hlen]
    exact List.mem_singleton_self _
  · intro hlen hcat
    apply mem_validateRefs_of b fm {} hdir
    apply mem_taxonomyLoop_of _ _ f hf
    unfold refFileFindings
    rw [if_neg (by omega)]
    apply List.mem_append_left
    rw [if_neg (by simpa [List.elem_iff] using hcat)]
    exact List.mem_singleton_self _
  · intro hlen hcat
    unfold refFileFindings
    rw [if_neg (by omega), if_pos (by simpa [List.elem_iff] using hcat)]
    simp
  · intro n hn hbig
    by_cases hlen : f.parts.length < 3
    · left
      apply mem_validateRefs_of b fm {} hdir
      apply mem_taxonomyLoop_of _ _ f hf
      unfold refFileFindings
      rw [if_pos hlen]
      exact List.mem_singleton_self _
    · right
      apply mem_validateRefs_of b fm {} hdir
      apply mem_taxonomyLoop_of _ _ f hf
      unfold refFileFindings
      rw [if_neg hlen]
      apply List.mem_append_right
      rw [hn]
      dsimp only
      rw [if_pos hbig]
      exact List.mem_singleton_self _

/-- Witness for C4 at the three concrete reference files of `c4Bundle`. -/
theorem C4_witness :
    (⟨Level.error, refDepthErrMsg ["references", "overview.md"]⟩ : VerificationIssue) ∈
      (validateReferencesTaxonomyAndSizes c4Bundle [] {}).issues
  ∧ refFileFindings c4FileMisc =
      (match c4FileMisc.lineCount with
       | none => [⟨Level.error, refDecodeErrMsg c4FileMisc.parts⟩]
       | some n =>
         if n > 800 then [⟨Level.error, refSizeErrMsg c4FileMisc.parts n⟩] else [])
  ∧ ((⟨Level.error, refDepthErrMsg c4FileBig.parts⟩ : VerificationIssue) ∈
        (validateReferencesTaxonomyAndSizes c4Bundle [] {}).issues ∨
      (⟨Level.error, refSizeErrMsg c4FileBig.parts 801⟩ : VerificationIssue) ∈
        (validateReferencesTaxonomyAndSizes c4Bundle [] {}).issues) := by
  refine ⟨?_, ?_, ?_⟩
  · exact (C4_taxonomy c4Bundle [] c4FileDepth2 (by decide) (by decide)).1 (by decide)
  · exact (C4_taxonomy c4Bundle [] c4FileMisc (by decide) (by decide)).2.2.1 (by decide) (by decide)
  · exact (C4_taxonomy c4Bundle [] c4FileBig (by decide) (by decide)).2.2.2 801 rfl (by decide)

/-- Claim C8: when the delimiter pair is present but the text between the two
`---` lines is empty or whitespace-only, verification records the fatal
"frontmatter must be a YAML mapping" error on both profiles, the YAML parser
is never consulted (the result does not depend on the oracle), `spec_passed`
is false and no field-level rule runs (the spec list holds exactly that one
error and no frontmatter is stored). -/
theorem C8_empty_frontmatter (y : String → Except String YVal) (b : Bundle)
    (t fmText body : String)
    (hroot : b.rootKind = PathKind.dir) (hmd : b.skillMdExists = true)
    (hread : b.skillMdRead = ReadResult.ok t)
    (hsplit : splitFrontmatter t = some (fmText, body))
    (hempty : (pyStrip fmText).isEmpty = true) :
    (verify y b).specErrors = [⟨Level.error, fmMappingMsg⟩]
  ∧ (⟨Level.error, fmMappingMsg⟩ : VerificationIssue) ∈ (verify y b).errors
  ∧ (verify y b).specPassed = false
  ∧ (verify y b).strictPassed = false
  ∧ (verify y b).frontmatter = none
  ∧ (∀ y', verify y' b = verify y b) := by
  have hv : ∀ (y0 : String → Except String YVal), verify y0 b =
      finalizeGrades
        (((validateYamlFrontmatterSafety fmText
            { validateTopLevelLayout b.entries (validateOptionalDirs b ({} : VerificationResult)) with
              body := some body }).addError fmMappingMsg).addSpecError fmMappingMsg) := by
    intro y0
    unfold verify verifyPre verifyWithText
    rw [if_neg (by simp [hroot]), if_neg (by simp [hmd]), hread]
    dsimp only
    rw [hsplit]
    dsimp only
    rw [if_pos hempty]
  have hx : (validateYamlFrontmatterSafety fmText
      { validateTopLevelLayout b.entries (validateOptionalDirs b ({} : VerificationResult)) with
        body := some body }).specIssues = [] := by
    rw [spec_validateYamlFrontmatterSafety]
    exact prologue_specIssues b
  obtain ⟨h1, h2, h3, h4⟩ := structuralFail _ fmMappingMsg hx
  refine ⟨?_, ?_, by rw [hv y]; exact h2, by rw [hv y]; exact h3, ?_,
    fun y' => by rw [hv y', hv y]⟩
  · rw [hv y, finalize_specErrors]
    simp [VerificationResult.specErrors, hx]
  · rw [hv y, finalize_errors]
    simp [VerificationResult.errors, VerificationResult.addError, VerificationResult.addSpecError]
  · rw [hv y, finalize_frontmatter, addSpecError_frontmatter, addError_frontmatter,
      frontmatter_validateYamlFrontmatterSafety]
    have : ({ validateTopLevelLayout b.entries (validateOptionalDirs b ({} : VerificationResult)) with
        body := some body } : VerificationResult).frontmatter =
        (validateTopLevelLayout b.entries (validateOptionalDirs b ({} : VerificationResult))).frontmatter := rfl
    rw [this, frontmatter_validateTopLevelLayout, frontmatter_validateOptionalDirs]

/-- Witness for C8 at a concrete bundle whose manifest is
`---\n---\nbody text`. -/
theorem C8_witness :
    (verify goodOracle b8Bundle).specErrors = [⟨Level.error, fmMappingMsg⟩]
  ∧ (verify goodOracle b8Bundle).specPassed = false :=
  ⟨(C8_empty_frontmatter goodOracle b8Bundle "---\n---\nbody text" "" "body text"
      rfl rfl rfl (by decide) (by decide)).1,
   (C8_empty_frontmatter goodOracle b8Bundle "---\n---\nbody text" "" "body text"
      rfl rfl rfl (by decide) (by decide)).2.2.1⟩

/-- Claim C9: `verify_or_raise` returns the verification result exactly when
`spec_passed` holds, and raises (the error branch) exactly when it does not,
carrying the formatted report; the strict gate alone never causes a raise
since the test only reads `spec_passed`. -/
theorem C9_verify_or_raise (y : String → Except String YVal) (b : Bundle) :
    ((∃ r', verifyOrRaise y b = Except.ok r') ↔ (verify y b).specPassed = true)
  ∧ (∀ r', verifyOrRaise y b = Except.ok r' → r' = verify y b ∧ r'.specPassed = true)
  ∧ (∀ msg, verifyOrRaise y b = Except.error msg →
      (verify y b).specPassed = false ∧
      msg = formatVerificationReport (verify y b) b.dirName) := by
  unfold verifyOrRaise VerificationResult.isValid
  by_cases hp : (verify y b).specPassed = true
  · rw [if_neg (by simp [hp])]
    refine ⟨iff_of_true ⟨verify y b, rfl⟩ hp, ?_, ?_⟩
    · intro r' h
      obtain rfl : verify y b = r' := by injection h
      exact ⟨rfl, hp⟩
    · intro msg h
      cases h
  · have hp' : (verify y b).specPassed = false := by
      revert hp; cases (verify y b).specPassed <;> simp
    rw [if_pos (by simp [hp'])]
    refine ⟨iff_of_false ?_ (by simp [hp']), ?_, ?_⟩
    · rintro ⟨r', h⟩
      cases h
    · intro r' h
      cases h
    · intro msg h
      obtain rfl : formatVerificationReport (verify y b) b.dirName = msg := by injection h
      exact ⟨hp', rfl⟩

/-- Witness for C9: a passing bundle returns, a failing bundle raises. -/
theorem C9_witness :
    (verify goodOracle goodBundle = verify goodOracle goodBundle ∧
      (verify goodOracle goodBundle).specPassed = true)
  ∧ ((verify goodOracle cex3Bundle).specPassed = false ∧
      formatVerificationReport (verify goodOracle cex3Bundle) cex3Bundle.dirName =
        formatVerificationReport (verify goodOracle cex3Bundle) cex3Bundle.dirName) :=
  ⟨(C9_verify_or_raise goodOracle goodBundle).2.1 (verify goodOracle goodBundle) rfl,
   (C9_verify_or_raise goodOracle cex3Bundle).2.2
     (formatVerificationReport (verify goodOracle cex3Bundle) cex3Bundle.dirName) rfl⟩

/-- The fence scan toggles `in_code` once per fence line: after any line list
the flag equals the parity of the fence-line count. -/
theorem foldl_fenceStep_inCode :
    ∀ (ls : List String) (st : FenceState),
      (List.foldl fenceStep st ls).inCode =
        if (ls.filter isFenceLine).length % 2 = 0 then st.inCode else !st.inCode := by
  intro ls
  induction ls with
  | nil => intro st; simp
  | cons l ls ih =>
    intro st
    rw [List.foldl_cons, ih]
    by_cases h : isFenceLine l = true
    · have hstep : (fenceStep st l).inCode = !st.inCode := by
        unfold fenceStep
        rw [if_pos h]
        cases hst : st.inCode <;> simp [hst]
      rw [hstep, List.filter_cons, if_pos h, List.length_cons]
      by_cases hp : (ls.filter isFenceLine).length % 2 = 0
      · rw [if_pos hp, if_neg (by omega)]
      · rw [if_neg hp, if_pos (by omega)]
        simp
    · have hstep : (fenceStep st l).inCode = st.inCode := by
        unfold fenceStep
        rw [if_neg h]
        split <;> rfl
      rw [hstep, List.filter_cons, if_neg h]

/-- Scanning a fence-free run while inside a code block counts every line
into both the total and the current block. -/
theorem foldl_fenceStep_nofence :
    ∀ (tail : List String) (st : FenceState), st.inCode = true →
      (∀ l ∈ tail, isFenceLine l = false) →
      List.foldl fenceStep st tail =
        { st with codeLines := st.codeLines + tail.length,
                  currentBlockLines := st.currentBlockLines + tail.length } := by
  intro tail
  induction tail with
  | nil => intro st h1 h2; simp
  | cons l ls ih =>
    intro st h1 h2
    rw [List.foldl_cons]
    have hstep : fenceStep st l =
        { st with codeLines := st.codeLines + 1,
                  currentBlockLines := st.currentBlockLines + 1 } := by
      unfold fenceStep
      rw [if_neg (by simp [h2 l (List.mem_cons_self l ls)]), if_pos h1]
    rw [hstep, ih { st with codeLines := st.codeLines + 1,
                            currentBlockLines := st.currentBlockLines + 1 }
        h1 (fun l' hl' => h2 l' (List.mem_cons_of_mem l hl'))]
    rw [List.length_cons]
    have e1 : st.codeLines + 1 + ls.length = st.codeLines + (ls.length + 1) := by omega
    have e2 : st.currentBlockLines + 1 + ls.length = st.currentBlockLines + (ls.length + 1) := by
      omega
    rw [e1, e2]

/-- A triple-backtick line is a fence line. -/
theorem isFence_backticks : isFenceLine "```" = true := by decide

/-- The fence scan of an even-fence prefix, an opening fence, and a fence-free
tail: the scan ends inside a block whose current length is the tail length,
and every tail line is counted into the code-line total. -/
theorem scan_concat (pre tail : List String)
    (hpre : (pre.filter isFenceLine).length % 2 = 0)
    (htail : ∀ l ∈ tail, isFenceLine l = false) :
    scanFences (pre ++ ["```"] ++ tail) =
      { scanFences pre with
          inCode := true,
          codeBlocks := (scanFences pre).codeBlocks + 1,
          codeLines := (scanFences pre).codeLines + tail.length,
          currentBlockLines := 0 + tail.length } := by
  unfold scanFences
  rw [List.foldl_append, List.foldl_append]
  have hin1 : (List.foldl fenceStep {} pre).inCode = false := by
    rw [foldl_fenceStep_inCode, if_pos hpre]
  have hopen : ∀ st : FenceState, st.inCode = false →
      fenceStep st "```" =
        { st with inCode := true, codeBlocks := st.codeBlocks + 1, currentBlockLines := 0 } := by
    intro st hst
    unfold fenceStep
    rw [if_pos isFence_backticks, if_pos hst]
  have hstep : List.foldl fenceStep (List.foldl fenceStep {} pre) ["```"] =
      { (List.foldl fenceStep {} pre) with
          inCode := true,
          codeBlocks := (List.foldl fenceStep {} pre).codeBlocks + 1,
          currentBlockLines := 0 } := by
    simp only [List.foldl_cons, List.foldl_nil]
    exact hopen _ hin1
  rw [hstep]
  rw [foldl_fenceStep_nofence tail _ rfl htail]

/-- Claim C10: if the manifest splits as an even-fence prefix, one opening
fence, and a fence-free tail (an unclosed fenced block), the brain-only
guidance emits the unclosed-block warning; the tail lines all count into the
fenced-code total, and the large-code-block error fires when the unclosed
block exceeds 25 lines or the total exceeds 60. -/
theorem C10_unclosed_fence (pre tail : List String) (text : String) (refTotal : Option Nat)
    (r : VerificationResult)
    (hlines : pySplitlines text = pre ++ ["```"] ++ tail)
    (hpre : (pre.filter isFenceLine).length % 2 = 0)
    (htail : ∀ l ∈ tail, isFenceLine l = false) :
    (⟨Level.warning, unclosedFenceMsg⟩ : VerificationIssue) ∈
      (validateBrainOnlyGuidance text refTotal r).issues
  ∧ (scanFences (pySplitlines text)).codeLines = (scanFences pre).codeLines + tail.length
  ∧ (tail.length > 25 ∨ (scanFences (pySplitlines text)).codeLines > 60 →
      (⟨Level.error, largeCodeMsg⟩ : VerificationIssue) ∈
        (validateBrainOnlyGuidance text refTotal r).issues) := by
  have hscan := scan_concat pre tail hpre htail
  refine ⟨?_, ?_, ?_⟩
  · unfold validateBrainOnlyGuidance
    dsimp only
    rw [hlines, hscan]
    (repeat' split) <;>
      simp_all [VerificationResult.addWarning, VerificationResult.addError]
  · rw [hlines, hscan]
  · intro hor
    have hcondT : max (scanFences pre).maxBlockLines (0 + tail.length) > 25 ∨
        (scanFences pre).codeLines + tail.length > 60 := by
      rcases hor with h | h
      · left
        have hle : 0 + tail.length ≤ max (scanFences pre).maxBlockLines (0 + tail.length) :=
          le_max_right _ _
        omega
      · right
        rw [hlines, hscan] at h
        simpa using h
    unfold validateBrainOnlyGuidance
    dsimp only
    rw [hlines, hscan]
    (repeat' split) <;>
      simp_all [VerificationResult.addWarning, VerificationResult.addError]

/-- Witness for C10: a manifest opening a fence and never closing it, with 30
lines inside. -/
theorem C10_witness :
    (⟨Level.warning, unclosedFenceMsg⟩ : VerificationIssue) ∈
      (validateBrainOnlyGuidance text10 none {}).issues
  ∧ (scanFences (pySplitlines text10)).codeLines =
      (scanFences ([] : List String)).codeLines + (List.replicate 30 "x").length
  ∧ (⟨Level.error, largeCodeMsg⟩ : VerificationIssue) ∈
      (validateBrainOnlyGuidance text10 none {}).issues := by
  have h := C10_unclosed_fence [] (List.replicate 30 "x") text10 none {}
    (by decide) (by decide) (by decide)
  exact ⟨h.1, h.2.1, h.2.2 (Or.inl (by decide))⟩

end SkillVerify
